import Mathlib

/-!
# Shallow embedding of the Quant Strategy Research Engine core

This file embeds, in Lean 4, the parts of the repository needed to verify
the frozen claims about it:

* `src/strategies/strategy_dna.py` — the `StrategyDNA` genome, its factory
  methods (`random`, `conservative`, `aggressive`, `balanced`) and genetic
  operators (`mutate`, `crossover`);
* `src/strategies/generator.py` — `StrategyGenerator.create_initial_population`
  and `StrategyGenerator.evolve`;
* `src/risk/risk_manager.py` — `RiskManager.check_trade`;
* `src/strategies/simulator.py` — `Position`, `Trade`, `StrategyState`, and the
  simulator's `_update_positions` / `_evaluate_entry` / `_close_position`;
* `src/strategies/paper_trader.py` — `PaperTradingEngine.evaluate_promotions`
  and `_meets_promotion_criteria`;
* `src/evolution/evaluator.py` — `PerformanceEvaluator._calculate_sharpe`.

Modelling conventions:

* Python floats are modelled as `ℚ`.  Python's `round(x, nd)` is modelled as
  rounding to the nearest multiple of `10^(-nd)` (`pyRound`); Python breaks
  ties to even while `round : ℚ → ℤ` breaks ties upward, but no claim below
  depends on the tie direction.  Python's `int(x)` (truncation toward zero)
  is `pyInt`.
* Calls to the global random source (`random.uniform`, `random.gauss`,
  `random.randint`, `random.choice`, `random.random`) are modelled by
  explicit choice parameters (an oracle): a Gaussian draw `gauss(0, σ)` is
  `σ * z` for an unconstrained oracle `z : ℚ`, `random.choice` takes an
  oracle index reduced mod the list length, and `uniform`/`randint` draws
  carry their range as a hypothesis where a proof needs it.
* `uuid.uuid4().hex[:8]` (fresh id generation) and `datetime.now()` are
  external inputs, passed as explicit `String` / `ℚ` (seconds) parameters.
  The `created_at` metadata timestamp string is not modelled.
* Logging calls (`logger`, `log_*`) and persistence are side effects with no
  bearing on any claim and are omitted.
-/

/-- Python `round(q, nd)`: round to the nearest multiple of `10^(-nd)`. -/
def pyRound (nd : ℕ) (q : ℚ) : ℚ := (round (q * 10 ^ nd) : ℤ) / 10 ^ nd

/-- Python `int(q)`: truncation toward zero (`Int./` is T-division). -/
def pyInt (q : ℚ) : ℤ := q.num / (q.den : ℤ)

/-- `round` is monotone (used for: rounding a clamped value keeps its bounds). -/
theorem round_rat_mono {x y : ℚ} (h : x ≤ y) : round x ≤ round y := by
  rw [round_eq, round_eq]
  exact Int.floor_mono (by linarith)

/-- Rounding to `nd` decimals keeps a lower bound that is an exact multiple
of `10^(-nd)`. -/
theorem le_pyRound (nd : ℕ) (k : ℤ) (q : ℚ) (h : (k : ℚ) / 10 ^ nd ≤ q) :
    (k : ℚ) / 10 ^ nd ≤ pyRound nd q := by
  unfold pyRound
  have hpow : (0 : ℚ) < 10 ^ nd := by positivity
  have hk : (k : ℚ) ≤ q * 10 ^ nd := by
    rw [div_le_iff₀ hpow] at h; exact h
  have h2 := round_rat_mono hk
  rw [round_intCast] at h2
  have h3 : (k : ℚ) ≤ ((round (q * 10 ^ nd) : ℤ) : ℚ) := by exact_mod_cast h2
  gcongr

/-- Rounding to `nd` decimals keeps an upper bound that is an exact multiple
of `10^(-nd)`. -/
theorem pyRound_le (nd : ℕ) (k : ℤ) (q : ℚ) (h : q ≤ (k : ℚ) / 10 ^ nd) :
    pyRound nd q ≤ (k : ℚ) / 10 ^ nd := by
  unfold pyRound
  have hpow : (0 : ℚ) < 10 ^ nd := by positivity
  have hk : q * 10 ^ nd ≤ (k : ℚ) := by
    rw [le_div_iff₀ hpow] at h; exact h
  have h2 := round_rat_mono hk
  rw [round_intCast] at h2
  have h3 : ((round (q * 10 ^ nd) : ℤ) : ℚ) ≤ (k : ℚ) := by exact_mod_cast h2
  gcongr

-- =========================================================
-- strategy_dna.py : the genome
-- =========================================================

/-- `SessionPreference = Literal['all', 'opening', 'mid', 'closing']`. -/
inductive SessionPreference
  | all | opening | mid | closing
  deriving DecidableEq, Repr

/-- `VolatilityPreference = Literal['all', 'low', 'medium', 'high']`. -/
inductive VolatilityPreference
  | all | low | medium | high
  deriving DecidableEq, Repr

/-- The `StrategyDNA` dataclass (`created_at` metadata omitted). -/
structure StrategyDNA where
  id : String
  name : String
  generation : ℤ
  parent_id : Option String
  min_spread_threshold : ℚ
  stability_ticks : ℤ
  latency_buffer_pct : ℚ
  position_size_pct : ℚ
  max_hold_seconds : ℤ
  preferred_session : SessionPreference
  volatility_preference : VolatilityPreference
  take_profit_pct : ℚ
  stop_loss_pct : ℚ
  deriving DecidableEq, Repr

/-- `StrategyDNA(...)` with all dataclass defaults; `__post_init__` fills the
name from the id.  `newId` is the `uuid.uuid4().hex[:8]` draw. -/
def StrategyDNA.mkDefault (newId : String) : StrategyDNA where
  id := newId
  name := "Strategy-" ++ (newId.toUpper.take 4)
  generation := 1
  parent_id := none
  min_spread_threshold := 0.05
  stability_ticks := 3
  latency_buffer_pct := 0.02
  position_size_pct := 5.0
  max_hold_seconds := 60
  preferred_session := .all
  volatility_preference := .all
  take_profit_pct := 0.1
  stop_loss_pct := 0.2

/-- Oracle draws consumed by `StrategyDNA.random`. -/
structure RandChoices where
  uSpread : ℚ        -- random.uniform(0.02, 0.20)
  nStability : ℤ     -- random.randint(1, 8)
  uLatency : ℚ       -- random.uniform(0.01, 0.08)
  uPosition : ℚ      -- random.uniform(2.0, 8.0)
  iHold : ℕ          -- index into [15, 30, 45, 60, 90, 120, 180]
  session : SessionPreference
  volatility : VolatilityPreference
  uTP : ℚ            -- random.uniform(0.05, 0.30)
  uSL : ℚ            -- random.uniform(0.10, 0.40)
  deriving Repr

/-- The range guarantees of the random draws consumed by `StrategyDNA.random`. -/
def RandChoices.Valid (c : RandChoices) : Prop :=
  0.02 ≤ c.uSpread ∧ c.uSpread ≤ 0.20 ∧
  1 ≤ c.nStability ∧ c.nStability ≤ 8 ∧
  0.01 ≤ c.uLatency ∧ c.uLatency ≤ 0.08 ∧
  2.0 ≤ c.uPosition ∧ c.uPosition ≤ 8.0 ∧
  0.05 ≤ c.uTP ∧ c.uTP ≤ 0.30 ∧
  0.10 ≤ c.uSL ∧ c.uSL ≤ 0.40

instance (c : RandChoices) : Decidable c.Valid := by
  unfold RandChoices.Valid; infer_instance

/-- `StrategyDNA.random(generation, parent_id)`. -/
def StrategyDNA.random (generation : ℤ) (parent_id : Option String)
    (newId : String) (c : RandChoices) : StrategyDNA where
  id := newId
  name := "Strategy-" ++ (newId.toUpper.take 4)
  generation := generation
  parent_id := parent_id
  min_spread_threshold := pyRound 3 c.uSpread
  stability_ticks := c.nStability
  latency_buffer_pct := pyRound 3 c.uLatency
  position_size_pct := pyRound 1 c.uPosition
  max_hold_seconds := ([15, 30, 45, 60, 90, 120, 180].get? (c.iHold % 7)).getD 60
  preferred_session := c.session
  volatility_preference := c.volatility
  take_profit_pct := pyRound 3 c.uTP
  stop_loss_pct := pyRound 3 c.uSL

/-- `StrategyDNA.conservative()`. -/
def StrategyDNA.conservative (newId : String) : StrategyDNA where
  id := newId
  name := "Conservative"
  generation := 1
  parent_id := none
  min_spread_threshold := 0.15
  stability_ticks := 6
  latency_buffer_pct := 0.05
  position_size_pct := 3.0
  max_hold_seconds := 90
  preferred_session := .mid
  volatility_preference := .low
  take_profit_pct := 0.15
  stop_loss_pct := 0.20

/-- `StrategyDNA.aggressive()`. -/
def StrategyDNA.aggressive (newId : String) : StrategyDNA where
  id := newId
  name := "Aggressive"
  generation := 1
  parent_id := none
  min_spread_threshold := 0.03
  stability_ticks := 2
  latency_buffer_pct := 0.01
  position_size_pct := 7.0
  max_hold_seconds := 30
  preferred_session := .all
  volatility_preference := .high
  take_profit_pct := 0.08
  stop_loss_pct := 0.25

/-- `StrategyDNA.balanced()`. -/
def StrategyDNA.balanced (newId : String) : StrategyDNA where
  id := newId
  name := "Balanced"
  generation := 1
  parent_id := none
  min_spread_threshold := 0.08
  stability_ticks := 4
  latency_buffer_pct := 0.03
  position_size_pct := 5.0
  max_hold_seconds := 60
  preferred_session := .mid
  volatility_preference := .medium
  take_profit_pct := 0.12
  stop_loss_pct := 0.18

/-- Oracle draws consumed by `StrategyDNA.mutate`: the `random.random() < p`
coin for each parameter, a standard-normal draw `z` for each Gaussian
perturbation (`random.gauss(0, σ) = σ * z`), the `randint` deltas, and the
resampled categorical values. -/
structure MutChoices where
  doSpread : Bool
  zSpread : ℚ
  doStability : Bool
  dStability : ℤ     -- random.randint(-2, 2)
  doLatency : Bool
  zLatency : ℚ
  doPosition : Bool
  zPosition : ℚ
  doHold : Bool
  dHold : ℤ          -- random.randint(-30, 30)
  doTP : Bool
  zTP : ℚ
  doSL : Bool
  zSL : ℚ
  doSession : Bool
  newSession : SessionPreference
  doVol : Bool
  newVol : VolatilityPreference
  deriving Repr

/-- The inner helper `mutate_value(value, min_val, max_val)` of
`StrategyDNA.mutate`, with the Gaussian noise `gauss(0, strength*range*0.3)`
written as `strength * range * 0.3 * z`. -/
def mutate_value (mutation_strength value min_val max_val z : ℚ) : ℚ :=
  pyRound 3 (max min_val (min max_val
    (value + mutation_strength * (max_val - min_val) * 0.3 * z)))

/-- `StrategyDNA.mutate(mutation_strength)`. -/
def StrategyDNA.mutate (g : StrategyDNA) (mutation_strength : ℚ)
    (newId : String) (c : MutChoices) : StrategyDNA where
  id := newId
  name := "Mutant-" ++ (newId.toUpper.take 4)
  generation := g.generation + 1
  parent_id := some g.id
  min_spread_threshold :=
    if c.doSpread then mutate_value mutation_strength g.min_spread_threshold 0.02 0.20 c.zSpread
    else g.min_spread_threshold
  stability_ticks :=
    if c.doStability then max 1 (min 10 (g.stability_ticks + c.dStability))
    else g.stability_ticks
  latency_buffer_pct :=
    if c.doLatency then mutate_value mutation_strength g.latency_buffer_pct 0.01 0.08 c.zLatency
    else g.latency_buffer_pct
  position_size_pct :=
    if c.doPosition then pyRound 1 (mutate_value mutation_strength g.position_size_pct 2.0 8.0 c.zPosition)
    else g.position_size_pct
  max_hold_seconds :=
    if c.doHold then max 15 (min 180 (g.max_hold_seconds + c.dHold))
    else g.max_hold_seconds
  preferred_session := if c.doSession then c.newSession else g.preferred_session
  volatility_preference := if c.doVol then c.newVol else g.volatility_preference
  take_profit_pct :=
    if c.doTP then mutate_value mutation_strength g.take_profit_pct 0.05 0.30 c.zTP
    else g.take_profit_pct
  stop_loss_pct :=
    if c.doSL then mutate_value mutation_strength g.stop_loss_pct 0.10 0.40 c.zSL
    else g.stop_loss_pct

/-- Oracle draws consumed by `StrategyDNA.crossover`: one 50/50 coin per
trait (`true` = inherit from `self`, `false` = from `other`). -/
structure CrossChoices where
  pickSpread : Bool
  pickStability : Bool
  pickLatency : Bool
  pickPosition : Bool
  pickHold : Bool
  pickSession : Bool
  pickVol : Bool
  pickTP : Bool
  pickSL : Bool
  deriving Repr

/-- `StrategyDNA.crossover(other)`: starts from `StrategyDNA()` defaults,
then overwrites lineage fields and each trait from one of the two parents. -/
def StrategyDNA.crossover (g other : StrategyDNA) (newId : String)
    (c : CrossChoices) : StrategyDNA :=
  let child := StrategyDNA.mkDefault newId
  { child with
    parent_id := some (g.id ++ "+" ++ other.id)
    generation := max g.generation other.generation + 1
    name := "Child-" ++ (newId.toUpper.take 4)
    min_spread_threshold := if c.pickSpread then g.min_spread_threshold else other.min_spread_threshold
    stability_ticks := if c.pickStability then g.stability_ticks else other.stability_ticks
    latency_buffer_pct := if c.pickLatency then g.latency_buffer_pct else other.latency_buffer_pct
    position_size_pct := if c.pickPosition then g.position_size_pct else other.position_size_pct
    max_hold_seconds := if c.pickHold then g.max_hold_seconds else other.max_hold_seconds
    preferred_session := if c.pickSession then g.preferred_session else other.preferred_session
    volatility_preference := if c.pickVol then g.volatility_preference else other.volatility_preference
    take_profit_pct := if c.pickTP then g.take_profit_pct else other.take_profit_pct
    stop_loss_pct := if c.pickSL then g.stop_loss_pct else other.stop_loss_pct }

/-- `MarketRegime.session` values (`regime_analyzer.py`). -/
inductive RegimeSession
  | pre_open | opening | mid | closing | closed
  deriving DecidableEq, Repr

/-- `MarketRegime.volatility` values (`regime_analyzer.py`). -/
inductive RegimeVolatility
  | low | medium | high
  deriving DecidableEq, Repr

/-- String equality between a session preference and a regime session label
(in Python both are plain strings). -/
def SessionPreference.matchesLabel : SessionPreference → RegimeSession → Bool
  | .opening, .opening => true
  | .mid, .mid => true
  | .closing, .closing => true
  | _, _ => false

/-- String equality between a volatility preference and a regime volatility
label (in Python both are plain strings). -/
def VolatilityPreference.matchesLabel : VolatilityPreference → RegimeVolatility → Bool
  | .low, .low => true
  | .medium, .medium => true
  | .high, .high => true
  | _, _ => false

/-- `StrategyDNA.is_compatible_with_regime(session, volatility)`. -/
def StrategyDNA.is_compatible_with_regime (g : StrategyDNA)
    (session : RegimeSession) (volatility : RegimeVolatility) : Bool :=
  if g.preferred_session ≠ .all ∧ ¬ g.preferred_session.matchesLabel session then
    false
  else if g.volatility_preference ≠ .all ∧
      ¬ g.volatility_preference.matchesLabel volatility then
    false
  else true

-- =========================================================
-- Declared parameter bounds (claim C1)
-- =========================================================

/-- Every numeric genome parameter lies in the declared `[min, max]` range
used by `mutate`'s clamps: spread `[0.02, 0.20]`, stability `[1, 10]`,
latency `[0.01, 0.08]`, position size `[2.0, 8.0]`, hold `[15, 180]`,
take-profit `[0.05, 0.30]`, stop-loss `[0.10, 0.40]`.  The categorical
parameters are within their declared value sets by construction (they are
inductive types). -/
def StrategyDNA.InBounds (g : StrategyDNA) : Prop :=
  0.02 ≤ g.min_spread_threshold ∧ g.min_spread_threshold ≤ 0.20 ∧
  1 ≤ g.stability_ticks ∧ g.stability_ticks ≤ 10 ∧
  0.01 ≤ g.latency_buffer_pct ∧ g.latency_buffer_pct ≤ 0.08 ∧
  2.0 ≤ g.position_size_pct ∧ g.position_size_pct ≤ 8.0 ∧
  15 ≤ g.max_hold_seconds ∧ g.max_hold_seconds ≤ 180 ∧
  0.05 ≤ g.take_profit_pct ∧ g.take_profit_pct ≤ 0.30 ∧
  0.10 ≤ g.stop_loss_pct ∧ g.stop_loss_pct ≤ 0.40

instance (g : StrategyDNA) : Decidable g.InBounds := by
  unfold StrategyDNA.InBounds; infer_instance

/-- The genomes producible by the code: random generation, the three named
presets, and finite sequences of `mutate` / `crossover` applications. -/
inductive StrategyDNA.Derived : StrategyDNA → Prop
  | rand (generation : ℤ) (parent_id : Option String) (newId : String)
      (c : RandChoices) (hc : c.Valid) :
      Derived (StrategyDNA.random generation parent_id newId c)
  | conservative (newId : String) : Derived (StrategyDNA.conservative newId)
  | aggressive (newId : String) : Derived (StrategyDNA.aggressive newId)
  | balanced (newId : String) : Derived (StrategyDNA.balanced newId)
  | mutated (g : StrategyDNA) (strength : ℚ) (newId : String) (c : MutChoices)
      (hg : Derived g) : Derived (g.mutate strength newId c)
  | cross (g other : StrategyDNA) (newId : String) (c : CrossChoices)
      (hg : Derived g) (hother : Derived other) :
      Derived (g.crossover other newId c)

/-- Clamp-then-round stays inside bounds that are exact multiples of `1/1000`. -/
theorem mutate_value_mem (s v z a b : ℚ) (ka kb : ℤ)
    (ha : a = (ka : ℚ) / 1000) (hb : b = (kb : ℚ) / 1000) (hab : a ≤ b) :
    a ≤ mutate_value s v a b z ∧ mutate_value s v a b z ≤ b := by
  unfold mutate_value
  have h1000 : ((10 : ℚ) ^ (3 : ℕ)) = 1000 := by norm_num
  constructor
  · have := le_pyRound 3 ka (max a (min b (v + s * (b - a) * 0.3 * z)))
      (by rw [h1000, ← ha]; exact le_max_left _ _)
    rw [h1000, ← ha] at this
    exact this
  · have := pyRound_le 3 kb (max a (min b (v + s * (b - a) * 0.3 * z)))
      (by rw [h1000, ← hb]; exact max_le hab (min_le_left _ _))
    rw [h1000, ← hb] at this
    exact this

/-- Rounding to 3 decimals keeps bounds that are exact multiples of `1/1000`. -/
theorem pyRound3_mem (q a b : ℚ) (ka kb : ℤ)
    (ha : a = (ka : ℚ) / 1000) (hb : b = (kb : ℚ) / 1000)
    (h1 : a ≤ q) (h2 : q ≤ b) :
    a ≤ pyRound 3 q ∧ pyRound 3 q ≤ b := by
  have h1000 : ((10 : ℚ) ^ (3 : ℕ)) = 1000 := by norm_num
  constructor
  · have := le_pyRound 3 ka q (by rw [h1000, ← ha]; exact h1)
    rw [h1000, ← ha] at this; exact this
  · have := pyRound_le 3 kb q (by rw [h1000, ← hb]; exact h2)
    rw [h1000, ← hb] at this; exact this

/-- Rounding to 1 decimal keeps bounds that are exact multiples of `1/10`. -/
theorem pyRound1_mem (q a b : ℚ) (ka kb : ℤ)
    (ha : a = (ka : ℚ) / 10) (hb : b = (kb : ℚ) / 10)
    (h1 : a ≤ q) (h2 : q ≤ b) :
    a ≤ pyRound 1 q ∧ pyRound 1 q ≤ b := by
  have h10 : ((10 : ℚ) ^ (1 : ℕ)) = 10 := by norm_num
  constructor
  · have := le_pyRound 1 ka q (by rw [h10, ← ha]; exact h1)
    rw [h10, ← ha] at this; exact this
  · have := pyRound_le 1 kb q (by rw [h10, ← hb]; exact h2)
    rw [h10, ← hb] at this; exact this

theorem inBounds_random (generation : ℤ) (parent_id : Option String)
    (newId : String) (c : RandChoices) (hc : c.Valid) :
    (StrategyDNA.random generation parent_id newId c).InBounds := by
  obtain ⟨h1, h2, h3, h4, h5, h6, h7, h8, h9, h10, h11, h12⟩ := hc
  have hold : 15 ≤ (([15, 30, 45, 60, 90, 120, 180].get? (c.iHold % 7)).getD 60 : ℤ) ∧
      (([15, 30, 45, 60, 90, 120, 180].get? (c.iHold % 7)).getD 60 : ℤ) ≤ 180 := by
    have hj : c.iHold % 7 < 7 := Nat.mod_lt _ (by norm_num)
    set j := c.iHold % 7 with hjdef
    interval_cases j <;> simp
  unfold StrategyDNA.random StrategyDNA.InBounds
  dsimp only
  refine ⟨?_, ?_, h3, by omega, ?_, ?_, ?_, ?_, hold.1, hold.2, ?_, ?_, ?_, ?_⟩
  · exact (pyRound3_mem c.uSpread 0.02 0.20 20 200 (by norm_num) (by norm_num) h1 h2).1
  · exact (pyRound3_mem c.uSpread 0.02 0.20 20 200 (by norm_num) (by norm_num) h1 h2).2
  · exact (pyRound3_mem c.uLatency 0.01 0.08 10 80 (by norm_num) (by norm_num) h5 h6).1
  · exact (pyRound3_mem c.uLatency 0.01 0.08 10 80 (by norm_num) (by norm_num) h5 h6).2
  · exact (pyRound1_mem c.uPosition 2.0 8.0 20 80 (by norm_num) (by norm_num) h7 h8).1
  · exact (pyRound1_mem c.uPosition 2.0 8.0 20 80 (by norm_num) (by norm_num) h7 h8).2
  · exact (pyRound3_mem c.uTP 0.05 0.30 50 300 (by norm_num) (by norm_num) h9 h10).1
  · exact (pyRound3_mem c.uTP 0.05 0.30 50 300 (by norm_num) (by norm_num) h9 h10).2
  · exact (pyRound3_mem c.uSL 0.10 0.40 100 400 (by norm_num) (by norm_num) h11 h12).1
  · exact (pyRound3_mem c.uSL 0.10 0.40 100 400 (by norm_num) (by norm_num) h11 h12).2

theorem inBounds_mutate (g : StrategyDNA) (s : ℚ) (newId : String)
    (c : MutChoices) (hg : g.InBounds) : (g.mutate s newId c).InBounds := by
  obtain ⟨b1, b2, b3, b4, b5, b6, b7, b8, b9, b10, b11, b12, b13, b14⟩ := hg
  unfold StrategyDNA.mutate StrategyDNA.InBounds
  dsimp only
  refine ⟨?_, ?_, ?_, ?_, ?_, ?_, ?_, ?_, ?_, ?_, ?_, ?_, ?_, ?_⟩ <;> split
  · exact (mutate_value_mem s g.min_spread_threshold c.zSpread 0.02 0.20 20 200
      (by norm_num) (by norm_num) (by norm_num)).1
  · exact b1
  · exact (mutate_value_mem s g.min_spread_threshold c.zSpread 0.02 0.20 20 200
      (by norm_num) (by norm_num) (by norm_num)).2
  · exact b2
  · exact le_max_left _ _
  · exact b3
  · exact max_le (by norm_num) (min_le_left _ _)
  · exact b4
  · exact (mutate_value_mem s g.latency_buffer_pct c.zLatency 0.01 0.08 10 80
      (by norm_num) (by norm_num) (by norm_num)).1
  · exact b5
  · exact (mutate_value_mem s g.latency_buffer_pct c.zLatency 0.01 0.08 10 80
      (by norm_num) (by norm_num) (by norm_num)).2
  · exact b6
  · have hmv := mutate_value_mem s g.position_size_pct c.zPosition 2.0 8.0 2000 8000
      (by norm_num) (by norm_num) (by norm_num)
    exact (pyRound1_mem _ 2.0 8.0 20 80 (by norm_num) (by norm_num) hmv.1 hmv.2).1
  · exact b7
  · have hmv := mutate_value_mem s g.position_size_pct c.zPosition 2.0 8.0 2000 8000
      (by norm_num) (by norm_num) (by norm_num)
    exact (pyRound1_mem _ 2.0 8.0 20 80 (by norm_num) (by norm_num) hmv.1 hmv.2).2
  · exact b8
  · exact le_max_left _ _
  · exact b9
  · exact max_le (by norm_num) (min_le_left _ _)
  · exact b10
  · exact (mutate_value_mem s g.take_profit_pct c.zTP 0.05 0.30 50 300
      (by norm_num) (by norm_num) (by norm_num)).1
  · exact b11
  · exact (mutate_value_mem s g.take_profit_pct c.zTP 0.05 0.30 50 300
      (by norm_num) (by norm_num) (by norm_num)).2
  · exact b12
  · exact (mutate_value_mem s g.stop_loss_pct c.zSL 0.10 0.40 100 400
      (by norm_num) (by norm_num) (by norm_num)).1
  · exact b13
  · exact (mutate_value_mem s g.stop_loss_pct c.zSL 0.10 0.40 100 400
      (by norm_num) (by norm_num) (by norm_num)).2
  · exact b14

theorem inBounds_crossover (g other : StrategyDNA) (newId : String)
    (c : CrossChoices) (hg : g.InBounds) (hother : other.InBounds) :
    (g.crossover other newId c).InBounds := by
  obtain ⟨a1, a2, a3, a4, a5, a6, a7, a8, a9, a10, a11, a12, a13, a14⟩ := hg
  obtain ⟨b1, b2, b3, b4, b5, b6, b7, b8, b9, b10, b11, b12, b13, b14⟩ := hother
  unfold StrategyDNA.crossover StrategyDNA.InBounds
  dsimp only
  refine ⟨?_, ?_, ?_, ?_, ?_, ?_, ?_, ?_, ?_, ?_, ?_, ?_, ?_, ?_⟩ <;> split <;>
    first
      | exact a1 | exact a2 | exact a3 | exact a4 | exact a5 | exact a6 | exact a7
      | exact a8 | exact a9 | exact a10 | exact a11 | exact a12 | exact a13 | exact a14
      | exact b1 | exact b2 | exact b3 | exact b4 | exact b5 | exact b6 | exact b7
      | exact b8 | exact b9 | exact b10 | exact b11 | exact b12 | exact b13 | exact b14

/-- C1: every genome produced by random generation, a named preset, or any
finite sequence of `mutate` / `crossover` applications starting from such
genomes has every numeric parameter within its declared `[min, max]` bound
(spread `[0.02, 0.20]`, stability ticks `[1, 10]`, latency `[0.01, 0.08]`,
position size `[2, 8]`, max hold `[15, 180]`, take-profit `[0.05, 0.30]`,
stop-loss `[0.10, 0.40]`), and every categorical parameter within its
declared value set (by type); mutation and crossover never produce an
out-of-bounds parameter. -/
theorem genome_params_always_in_bounds (g : StrategyDNA) (h : g.Derived) :
    g.InBounds := by
  induction h with
  | rand generation parent_id newId c hc => exact inBounds_random generation parent_id newId c hc
  | conservative newId => unfold StrategyDNA.InBounds StrategyDNA.conservative; norm_num
  | aggressive newId => unfold StrategyDNA.InBounds StrategyDNA.aggressive; norm_num
  | balanced newId => unfold StrategyDNA.InBounds StrategyDNA.balanced; norm_num
  | mutated g s newId c hg ih => exact inBounds_mutate g s newId c ih
  | cross g other newId c hg hother ihg ihother =>
      exact inBounds_crossover g other newId c ihg ihother

/-- C1 witness: a conservative preset, mutated (with every mutation flag on)
and then crossed with an aggressive preset, is in bounds. -/
theorem genome_params_always_in_bounds_witness :
    (((StrategyDNA.conservative "aaaaaaaa").mutate 0.7 "bbbbbbbb"
        ⟨true, 5, true, 2, true, -3, true, 10, true, 40, true, -2, true, 1,
          true, .opening, true, .high⟩).crossover
      (StrategyDNA.aggressive "cccccccc") "dddddddd"
      ⟨true, false, true, false, true, false, true, false, true⟩).InBounds :=
  genome_params_always_in_bounds _
    (.cross _ _ _ _
      (.mutated _ _ _ _ (.conservative "aaaaaaaa"))
      (.aggressive "cccccccc"))

/-- C7: `mutate` returns a new genome whose id is the freshly generated one
(distinct from the parent's id whenever the fresh draw differs), whose
generation is exactly `parent.generation + 1` (hence strictly greater), and
whose `parent_id` is the parent's id; `crossover` returns a genome whose
generation is `max(parent1.generation, parent2.generation) + 1` and whose
parent reference records both ancestors' ids. -/
theorem mutate_crossover_lineage (g g1 g2 : StrategyDNA) (s : ℚ)
    (newId1 newId2 : String) (mc : MutChoices) (cc : CrossChoices)
    (hs0 : 0 ≤ s) (hs1 : s ≤ 1) (hfresh : newId1 ≠ g.id) :
    (g.mutate s newId1 mc).id = newId1 ∧
    (g.mutate s newId1 mc).id ≠ g.id ∧
    (g.mutate s newId1 mc).generation = g.generation + 1 ∧
    g.generation < (g.mutate s newId1 mc).generation ∧
    (g.mutate s newId1 mc).parent_id = some g.id ∧
    (g1.crossover g2 newId2 cc).generation = max g1.generation g2.generation + 1 ∧
    (g1.crossover g2 newId2 cc).parent_id = some (g1.id ++ "+" ++ g2.id) := by
  refine ⟨rfl, hfresh, rfl, by simp [StrategyDNA.mutate], rfl, rfl, rfl⟩

/-- C7 witness at concrete genomes and a concrete fresh id. -/
theorem mutate_crossover_lineage_witness :
    ((StrategyDNA.conservative "aaaaaaaa").mutate 0.2 "bbbbbbbb"
      ⟨false, 0, false, 0, false, 0, false, 0, false, 0, false, 0, false, 0,
        false, .all, false, .all⟩).generation =
      (StrategyDNA.conservative "aaaaaaaa").generation + 1 ∧
    ((StrategyDNA.conservative "aaaaaaaa").mutate 0.2 "bbbbbbbb"
      ⟨false, 0, false, 0, false, 0, false, 0, false, 0, false, 0, false, 0,
        false, .all, false, .all⟩).id ≠ "aaaaaaaa" := by
  have h := mutate_crossover_lineage (StrategyDNA.conservative "aaaaaaaa")
    (StrategyDNA.conservative "aaaaaaaa") (StrategyDNA.aggressive "cccccccc") 0.2
    "bbbbbbbb" "dddddddd"
    ⟨false, 0, false, 0, false, 0, false, 0, false, 0, false, 0, false, 0,
      false, .all, false, .all⟩
    ⟨true, true, true, true, true, true, true, true, true⟩
    (by norm_num) (by norm_num) (by decide)
  exact ⟨h.2.2.1, h.2.1⟩

-- =========================================================
-- generator.py : StrategyGenerator
-- =========================================================

/-- The `StrategyGenerator` configuration (`population_size`,
`retire_percent`, `mutation_rate` from `settings` or constructor args). -/
structure GeneratorConfig where
  population_size : ℕ
  retire_percent : ℚ
  mutation_rate : ℚ
  deriving Repr

/-- Oracle draws for one random genome of the initial population: the fresh
id plus the parameter draws. -/
structure InitChoice where
  newId : String
  rc : RandChoices

/-- `StrategyGenerator.create_initial_population()`: the three presets plus
`population_size - 3` random genomes, all at generation 1.  `presetIds` are
the three uuid draws for the presets, `cs` the draws for the random fill. -/
def create_initial_population (cfg : GeneratorConfig)
    (idC idA idB : String) (cs : ℕ → InitChoice) : List StrategyDNA :=
  [StrategyDNA.conservative idC, StrategyDNA.aggressive idA,
    StrategyDNA.balanced idB] ++
  (List.range (cfg.population_size - 3)).map
    (fun i => StrategyDNA.random 1 none (cs i).newId (cs i).rc)

/-- Oracle draws for one offspring produced inside `evolve`'s fill loop:
the `random.random() < 0.7` coin, the `random.choice` indices over the
survivor list, and the draws consumed by the chosen genetic operator. -/
structure OffspringChoice where
  useMutation : Bool   -- random.random() < 0.7
  parentIdx : ℕ        -- random.choice(survivors) (mutation branch)
  p1Idx : ℕ            -- random.choice(survivors) (crossover, parent 1)
  p2Idx : ℕ            -- random.choice(survivors) (crossover, parent 2)
  p2Retry : ℕ          -- re-draw of parent 2 on id collision
  newId : String
  mc : MutChoices
  cc : CrossChoices

/-- A junk genome returned by `random.choice` on an out-of-range index; the
index is always reduced mod the (nonempty) list length, so it is never used
on the Python-reachable paths. -/
def junkDNA : StrategyDNA := StrategyDNA.mkDefault "00000000"

/-- One iteration of `evolve`'s offspring loop body: pick mutation (with
probability 0.7, or always when fewer than 2 survivors) or crossover. -/
def makeOffspring (survivors : List (StrategyDNA × ℚ)) (c : OffspringChoice) :
    StrategyDNA :=
  if c.useMutation ∨ survivors.length < 2 then
    let pr := survivors.getD (c.parentIdx % survivors.length) (junkDNA, 0)
    -- parent_rank = survivors.index((parent, score))
    let parent_rank : ℕ := survivors.findIdx (fun p => decide (p = pr))
    let mutation_strength : ℚ :=
      0.1 + 0.3 * ((parent_rank : ℚ) / (survivors.length : ℚ))
    pr.1.mutate mutation_strength c.newId c.mc
  else
    let p1 := survivors.getD (c.p1Idx % survivors.length) (junkDNA, 0)
    let p2 := survivors.getD (c.p2Idx % survivors.length) (junkDNA, 0)
    -- avoid self-crossover: re-draw parent 2 once if the ids collide
    let p2 := if p1.1.id = p2.1.id
      then survivors.getD (c.p2Retry % survivors.length) (junkDNA, 0)
      else p2
    p1.1.crossover p2.1 c.newId c.cc

/-- `evolve`'s `while len(new_population) < population_size` loop.  Each
iteration appends exactly one offspring, so `population_size` units of fuel
always suffice (structural recursion on the fuel keeps the definition
kernel-computable; `evolve` passes `fuel = population_size`). -/
def fillPopulation (cfg : GeneratorConfig) (survivors : List (StrategyDNA × ℚ))
    (cs : ℕ → OffspringChoice) :
    ℕ → ℕ → List StrategyDNA → List StrategyDNA
  | 0, _, pop => pop
  | fuel + 1, k, pop =>
      if pop.length < cfg.population_size then
        fillPopulation cfg survivors cs fuel (k + 1)
          (pop ++ [makeOffspring survivors (cs k)])
      else pop

/-- `StrategyGenerator.evolve(ranked_strategies)`.  The bookkeeping side
effects (`current_generation` bump, retirement logging, the appended
`EvolutionStats` record) do not affect the returned population and are
omitted; on the empty input the method logs a warning and falls back to
`create_initial_population`. -/
def evolve (cfg : GeneratorConfig)
    (ranked_strategies : List (StrategyDNA × ℚ))
    (idC idA idB : String) (ics : ℕ → InitChoice)
    (cs : ℕ → OffspringChoice) : List StrategyDNA :=
  if ranked_strategies.isEmpty then
    create_initial_population cfg idC idA idB ics
  else
    -- n_keep = max(2, int(len(ranked) * (1 - retire_percent)))
    let n_keep : ℕ :=
      max 2 (pyInt ((ranked_strategies.length : ℚ) * (1 - cfg.retire_percent))).toNat
    let survivors := ranked_strategies.take n_keep
    let new_population := survivors.map Prod.fst
    fillPopulation cfg survivors cs cfg.population_size 0 new_population

/-- The fill loop grows the population one offspring per iteration until the
configured size is reached, so with enough fuel its result has exactly
`max population_size pop.length` elements. -/
theorem fillPopulation_length (cfg : GeneratorConfig)
    (survivors : List (StrategyDNA × ℚ)) (cs : ℕ → OffspringChoice) :
    ∀ (fuel k : ℕ) (pop : List StrategyDNA),
      cfg.population_size ≤ pop.length + fuel →
      (fillPopulation cfg survivors cs fuel k pop).length =
        max cfg.population_size pop.length := by
  intro fuel
  induction fuel with
  | zero =>
      intro k pop h
      unfold fillPopulation
      omega
  | succ fuel ih =>
      intro k pop h
      unfold fillPopulation
      split
      · rename_i hlt
        rw [ih (k + 1) (pop ++ [makeOffspring survivors (cs k)]) (by simp; omega)]
        simp only [List.length_append, List.length_singleton]
        omega
      · rename_i hge
        omega

/-- C3 (amended): on a nonempty ranked list of length `N`, `evolve` returns
`max(population_size, |survivors|)` genomes where
`|survivors| = min(max(2, int(N * (1 - retire_percent))), N)`; in particular,
when `N` equals the configured population size the returned population has
exactly `N` genomes.  (The claim as frozen — exactly `N` for every `N ≥ 1` —
fails when `N` differs from the configured population size; see the
counterexample.) -/
theorem evolve_population_size (cfg : GeneratorConfig)
    (ranked : List (StrategyDNA × ℚ)) (idC idA idB : String)
    (ics : ℕ → InitChoice) (cs : ℕ → OffspringChoice) (h : ranked ≠ []) :
    (evolve cfg ranked idC idA idB ics cs).length =
      max cfg.population_size
        (min (max 2 (pyInt ((ranked.length : ℚ) * (1 - cfg.retire_percent))).toNat)
          ranked.length) ∧
    (ranked.length = cfg.population_size →
      (evolve cfg ranked idC idA idB ics cs).length = ranked.length) := by
  have hne : ranked.isEmpty = false := by
    simp [List.isEmpty_iff]; exact h
  constructor
  · unfold evolve
    rw [hne]
    simp only [Bool.false_eq_true, if_false]
    rw [fillPopulation_length cfg _ cs cfg.population_size 0 _ (by omega)]
    simp [List.length_take]
  · intro hN
    unfold evolve
    rw [hne]
    simp only [Bool.false_eq_true, if_false]
    rw [fillPopulation_length cfg _ cs cfg.population_size 0 _ (by omega)]
    simp only [List.length_map, List.length_take]
    omega

/-- A fixed oracle for the random genomes of the initial population, used in
concrete instantiations below. -/
def ics0 : ℕ → InitChoice :=
  fun _ => ⟨"ffffffff", ⟨0.05, 3, 0.02, 5.0, 0, .all, .all, 0.1, 0.2⟩⟩

/-- A fixed oracle for `evolve`'s offspring loop, used in concrete
instantiations below. -/
def cs0 : ℕ → OffspringChoice :=
  fun _ => ⟨true, 0, 0, 0, 0, "abcd0123",
    ⟨false, 0, false, 0, false, 0, false, 0, false, 0, false, 0, false, 0,
      false, .all, false, .all⟩,
    ⟨true, true, true, true, true, true, true, true, true⟩⟩

/-- C3 counterexample: with the default configuration (population size 8,
retire 25%), `evolve` on a ranked list of size `N = 1` returns 8 genomes,
not 1 — the population is restored to the *configured* size, not to the
input size. -/
theorem evolve_population_size_counterexample :
    (evolve ⟨8, 0.25, 0.3⟩ [(StrategyDNA.conservative "aaaaaaaa", 1)]
        "cccccccc" "gggggggg" "eeeeeeee" ics0 cs0).length = 8 ∧
    [(StrategyDNA.conservative "aaaaaaaa", (1 : ℚ))].length = 1 ∧ (8 : ℕ) ≠ 1 := by
  refine ⟨?_, rfl, by decide⟩
  unfold evolve
  rw [show ([(StrategyDNA.conservative "aaaaaaaa", (1 : ℚ))]).isEmpty = false from rfl]
  simp only [Bool.false_eq_true, if_false]
  rw [fillPopulation_length _ _ cs0 _ 0 _ (Nat.le_add_left _ _)]
  simp only [List.length_map, List.length_take, List.length_singleton]
  generalize (pyInt ((([(StrategyDNA.conservative "aaaaaaaa", (1 : ℚ))]).length : ℚ)
    * (1 - (0.25 : ℚ)))).toNat = x
  have h1 : min (max 2 x) 1 ≤ 1 := min_le_right _ _
  omega

/-- C3 witness for the amended statement: a ranked list whose size equals the
configured population size 8 evolves to a population of exactly 8 genomes. -/
theorem evolve_population_size_witness :
    (evolve ⟨8, 0.25, 0.3⟩
        (List.replicate 8 (StrategyDNA.conservative "aaaaaaaa", (1 : ℚ)))
        "cccccccc" "gggggggg" "eeeeeeee" ics0 cs0).length =
      (List.replicate 8 (StrategyDNA.conservative "aaaaaaaa", (1 : ℚ))).length :=
  (evolve_population_size ⟨8, 0.25, 0.3⟩
    (List.replicate 8 (StrategyDNA.conservative "aaaaaaaa", (1 : ℚ)))
    "cccccccc" "gggggggg" "eeeeeeee" ics0 cs0 (by simp)).2 (by simp)

/-- C8: calling `evolve` with an empty ranked list does not fail: it returns
exactly `create_initial_population` — the three named presets (conservative,
aggressive, balanced) followed by random genomes — whose size is the
configured population size (the settings enforce `population_size ≥ 3`). -/
theorem evolve_empty_returns_initial_population (cfg : GeneratorConfig)
    (idC idA idB : String) (ics : ℕ → InitChoice) (cs : ℕ → OffspringChoice)
    (hmin : 3 ≤ cfg.population_size) :
    evolve cfg [] idC idA idB ics cs =
      create_initial_population cfg idC idA idB ics ∧
    (create_initial_population cfg idC idA idB ics).length =
      cfg.population_size ∧
    (create_initial_population cfg idC idA idB ics).take 3 =
      [StrategyDNA.conservative idC, StrategyDNA.aggressive idA,
        StrategyDNA.balanced idB] := by
  refine ⟨rfl, ?_, ?_⟩
  · unfold create_initial_population
    simp only [List.length_append, List.length_map, List.length_range]
    simp; omega
  · rfl

/-- C8 witness at the default population size 8. -/
theorem evolve_empty_returns_initial_population_witness :
    evolve ⟨8, 0.25, 0.3⟩ [] "cccccccc" "gggggggg" "eeeeeeee" ics0 cs0 =
      create_initial_population ⟨8, 0.25, 0.3⟩ "cccccccc" "gggggggg" "eeeeeeee" ics0 ∧
    (create_initial_population ⟨8, 0.25, 0.3⟩ "cccccccc" "gggggggg" "eeeeeeee"
        ics0).length = 8 :=
  ⟨(evolve_empty_returns_initial_population ⟨8, 0.25, 0.3⟩ "cccccccc" "gggggggg"
      "eeeeeeee" ics0 cs0 (by norm_num)).1,
    (evolve_empty_returns_initial_population ⟨8, 0.25, 0.3⟩ "cccccccc" "gggggggg"
      "eeeeeeee" ics0 cs0 (by norm_num)).2.1⟩

-- =========================================================
-- risk_manager.py : RiskManager.check_trade
-- =========================================================

/-- `RiskDecision` enum. -/
inductive RiskDecision
  | APPROVED
  | REJECTED_DAILY_LOSS
  | REJECTED_POSITION_SIZE
  | REJECTED_TRADE_LIMIT
  | REJECTED_KILL_SWITCH
  | REJECTED_VOLATILITY
  | REJECTED_EXPOSURE
  deriving DecidableEq, Repr

/-- `TradeRequest` dataclass (the `timestamp` metadata is not used by
`check_trade` and is omitted). -/
structure TradeRequest where
  strategy_id : String
  symbol : String
  side : String
  quantity : ℤ
  price : ℚ
  exchange : String
  deriving Repr

/-- `RiskCheckResult` (the human-readable `reason` string is omitted). -/
structure RiskCheckResult where
  decision : RiskDecision
  modified_quantity : Option ℤ := none
  deriving DecidableEq, Repr

/-- The `RiskState` fields read by `check_trade` (`positions_by_symbol` and
`daily_date` are not read by the decision chain; the date-based
`_check_daily_reset` at the top of `check_trade` is the identity within a
single trading day and is modelled as such). -/
structure RiskState where
  daily_pnl : ℚ := 0
  daily_trades : ℕ := 0
  total_exposure : ℚ := 0
  kill_switch_active : Bool := false
  current_volatility : ℚ := 0
  avg_volatility : ℚ := 0
  deriving Repr

/-- The `RiskManager` configuration: the four settings-derived limits plus
the two hard-coded safety limits (`max_total_exposure_pct = 50.0`,
`volatility_multiplier_threshold = 3.0`). -/
structure RiskConfig where
  max_daily_loss_pct : ℚ
  max_trades_per_day : ℕ
  max_position_size_pct : ℚ
  initial_capital : ℚ
  max_total_exposure_pct : ℚ := 50
  volatility_multiplier_threshold : ℚ := 3
  deriving Repr

/-- `RiskManager.check_trade(request, current_capital)`: the gatekeeper
decision chain, in source order — kill switch, daily loss, trade count,
position size (reject or approve-with-reduced-quantity), total exposure,
volatility. -/
def check_trade (cfg : RiskConfig) (st : RiskState) (request : TradeRequest)
    (current_capital : ℚ) : RiskCheckResult :=
  if st.kill_switch_active then
    ⟨.REJECTED_KILL_SWITCH, none⟩
  else
    let daily_loss_pct := st.daily_pnl / cfg.initial_capital * 100
    if daily_loss_pct ≤ -cfg.max_daily_loss_pct then
      ⟨.REJECTED_DAILY_LOSS, none⟩
    else if st.daily_trades ≥ cfg.max_trades_per_day then
      ⟨.REJECTED_TRADE_LIMIT, none⟩
    else
      let trade_value := (request.quantity : ℚ) * request.price
      let position_pct := trade_value / current_capital * 100
      if position_pct > cfg.max_position_size_pct then
        let max_value := current_capital * (cfg.max_position_size_pct / 100)
        let max_qty : ℤ := pyInt (max_value / request.price)
        if max_qty < 1 then ⟨.REJECTED_POSITION_SIZE, none⟩
        else ⟨.APPROVED, some max_qty⟩
      else
        let new_exposure := st.total_exposure + trade_value
        let exposure_pct := new_exposure / current_capital * 100
        if exposure_pct > cfg.max_total_exposure_pct then
          ⟨.REJECTED_EXPOSURE, none⟩
        else if st.avg_volatility > 0 ∧
            st.current_volatility / st.avg_volatility >
              cfg.volatility_multiplier_threshold then
          ⟨.REJECTED_VOLATILITY, none⟩
        else ⟨.APPROVED, none⟩

/-- C2 counterexample: kill switch inactive, no daily loss, zero trades
today — capital 100000, open exposure 50000 (exactly the 50% cap), proposed
trade 100 × 150 = 15000 (> the 10% position cap, resized to 66 units =
9900).  Open exposure plus the (resized or original) trade value exceeds
the 50% cap, yet `check_trade` returns APPROVED: the resize path returns
immediately and the exposure rule is never evaluated. -/
theorem exposure_after_resize_counterexample :
    (let cfg : RiskConfig := ⟨2, 50, 10, 100000, 50, 3⟩
     let st : RiskState := ⟨0, 0, 50000, false, 0, 0⟩
     let req : TradeRequest := ⟨"s1", "RELIANCE", "BUY", 100, 150, "NSE"⟩
     st.kill_switch_active = false ∧
     ¬ (st.daily_pnl / cfg.initial_capital * 100 ≤ -cfg.max_daily_loss_pct) ∧
     st.daily_trades < cfg.max_trades_per_day ∧
     st.total_exposure + 66 * req.price >
       cfg.max_total_exposure_pct / 100 * 100000 ∧
     st.total_exposure + (req.quantity : ℚ) * req.price >
       cfg.max_total_exposure_pct / 100 * 100000 ∧
     check_trade cfg st req 100000 = ⟨.APPROVED, some 66⟩ ∧
     (check_trade cfg st req 100000).decision ≠ .REJECTED_EXPOSURE) := by
  refine ⟨rfl, by norm_num, by norm_num, by norm_num, by norm_num, ?_, ?_⟩
  · unfold check_trade pyInt
    norm_num
  · unfold check_trade pyInt
    norm_num
    decide

/-- C2 (amended): the total-exposure rule applies only on the path where the
position-size rule did *not* fire (proposed value within the position cap):
for every request and positive capital with the kill switch inactive, the
daily-loss rule not firing, the trade count below the maximum, and the
proposed value within the max-position-% of capital, if the aggregate open
exposure plus the proposed trade's value exceeds the max-total-exposure
fraction of capital then `check_trade` rejects with REJECTED_EXPOSURE,
never approving.  (When the position-size rule resizes the trade,
`check_trade` returns APPROVED at once and the exposure rule is skipped —
see the counterexample.) -/
theorem exposure_limit_rejects (cfg : RiskConfig) (st : RiskState)
    (request : TradeRequest) (current_capital : ℚ)
    (hkill : st.kill_switch_active = false)
    (hloss : ¬ (st.daily_pnl / cfg.initial_capital * 100 ≤ -cfg.max_daily_loss_pct))
    (htrades : st.daily_trades < cfg.max_trades_per_day)
    (hpos : ¬ ((request.quantity : ℚ) * request.price / current_capital * 100 >
      cfg.max_position_size_pct))
    (hexp : (st.total_exposure + (request.quantity : ℚ) * request.price) /
      current_capital * 100 > cfg.max_total_exposure_pct) :
    check_trade cfg st request current_capital = ⟨.REJECTED_EXPOSURE, none⟩ := by
  unfold check_trade
  rw [hkill]
  simp only [Bool.false_eq_true, if_false]
  rw [if_neg hloss, if_neg (by omega : ¬ st.daily_trades ≥ cfg.max_trades_per_day),
    if_neg hpos, if_pos hexp]

/-- C2 amended-statement witness: same setup as the counterexample but with
a proposed trade within the position cap (60 × 150 = 9000 ≤ 10%), which
would push exposure to 59000 > 50000. -/
theorem exposure_limit_rejects_witness :
    check_trade ⟨2, 50, 10, 100000, 50, 3⟩ ⟨0, 0, 50000, false, 0, 0⟩
      ⟨"s1", "RELIANCE", "BUY", 60, 150, "NSE"⟩ 100000 =
      ⟨.REJECTED_EXPOSURE, none⟩ :=
  exposure_limit_rejects ⟨2, 50, 10, 100000, 50, 3⟩ ⟨0, 0, 50000, false, 0, 0⟩
    ⟨"s1", "RELIANCE", "BUY", 60, 150, "NSE"⟩ 100000 rfl (by norm_num)
    (by norm_num) (by norm_num) (by norm_num)

/-- C6: when no higher-priority rule fires and the proposed value
`quantity * price` exceeds the max-position-% of a positive capital, the
position-size rule either rejects (when even one unit would exceed the
limit, `int(capital * max% / price) < 1`) or approves with
`modified_quantity = int(capital * max% / price)`. -/
theorem position_size_resizes_or_rejects (cfg : RiskConfig) (st : RiskState)
    (request : TradeRequest) (current_capital : ℚ)
    (hkill : st.kill_switch_active = false)
    (hloss : ¬ (st.daily_pnl / cfg.initial_capital * 100 ≤ -cfg.max_daily_loss_pct))
    (htrades : st.daily_trades < cfg.max_trades_per_day)
    (hpos : (request.quantity : ℚ) * request.price / current_capital * 100 >
      cfg.max_position_size_pct) :
    (pyInt (current_capital * (cfg.max_position_size_pct / 100) / request.price) < 1 →
      check_trade cfg st request current_capital =
        ⟨.REJECTED_POSITION_SIZE, none⟩) ∧
    (1 ≤ pyInt (current_capital * (cfg.max_position_size_pct / 100) / request.price) →
      check_trade cfg st request current_capital =
        ⟨.APPROVED, some (pyInt (current_capital * (cfg.max_position_size_pct / 100) /
          request.price))⟩) := by
  constructor
  · intro hlt
    unfold check_trade
    rw [hkill]
    simp only [Bool.false_eq_true, if_false]
    rw [if_neg hloss, if_neg (by omega : ¬ st.daily_trades ≥ cfg.max_trades_per_day),
      if_pos hpos, if_pos hlt]
  · intro hge
    unfold check_trade
    rw [hkill]
    simp only [Bool.false_eq_true, if_false]
    rw [if_neg hloss, if_neg (by omega : ¬ st.daily_trades ≥ cfg.max_trades_per_day),
      if_pos hpos, if_neg (by omega)]

/-- C6 witness, the spec's scenario: max position 10%, capital 100000,
proposed value 15000 (10 × 1500) — approved with quantity reduced to
`int(10000 / 1500) = 6`, not rejected. -/
theorem position_size_resizes_or_rejects_witness :
    check_trade ⟨2, 50, 10, 100000, 50, 3⟩ ⟨0, 0, 0, false, 0, 0⟩
      ⟨"s1", "TCS", "BUY", 10, 1500, "NSE"⟩ 100000 = ⟨.APPROVED, some 6⟩ := by
  have h := (position_size_resizes_or_rejects ⟨2, 50, 10, 100000, 50, 3⟩
    ⟨0, 0, 0, false, 0, 0⟩ ⟨"s1", "TCS", "BUY", 10, 1500, "NSE"⟩ 100000 rfl
    (by norm_num) (by norm_num) (by norm_num)).2 (by norm_num [pyInt])
  rw [h]
  norm_num [pyInt]

-- =========================================================
-- simulator.py : positions, trades, strategy state
-- =========================================================

/-- `Side` enum. -/
inductive Side
  | BUY | SELL
  deriving DecidableEq, Repr

/-- `SpreadData` (`websocket_streamer.py`): one paired price observation.
Times are seconds as `ℚ`. -/
structure SpreadData where
  symbol : String
  nse_price : ℚ
  bse_price : ℚ
  timestamp : ℚ
  deriving Repr

/-- `SpreadSignal` (`spread_analyzer.py`): the fields read by the simulator. -/
structure SpreadSignal where
  symbol : String
  timestamp : ℚ
  current_spread_pct : ℚ
  avg_spread_pct : ℚ
  z_score : ℚ
  signal_strength : ℚ
  direction : String         -- "BSE>NSE" or "NSE>BSE"
  ticks_stable : ℕ
  is_actionable : Bool
  deriving Repr

/-- `MarketRegime` (`regime_analyzer.py`): the fields read by the simulator. -/
structure MarketRegime where
  volatility : RegimeVolatility
  session : RegimeSession
  deriving Repr

/-- An open `Position`.  `max_hold_time` is the `timedelta` in seconds. -/
structure Position where
  symbol : String
  entry_exchange : String
  exit_exchange : String
  side : Side
  quantity : ℤ
  entry_price : ℚ
  entry_time : ℚ
  max_hold_time : ℚ
  take_profit_price : ℚ
  stop_loss_price : ℚ
  current_price : ℚ := 0
  unrealized_pnl : ℚ := 0
  deriving Repr

/-- `Position.update_price(price)`. -/
def Position.update_price (p : Position) (price : ℚ) : Position :=
  { p with
    current_price := price
    unrealized_pnl :=
      if p.side = Side.BUY then (price - p.entry_price) * (p.quantity : ℚ)
      else (p.entry_price - price) * (p.quantity : ℚ) }

/-- `Position.should_exit(current_time)`: `(should_exit, reason)`.  The
stop-loss comparison transcribes the source expression
`-(stop_loss_price - entry_price) / entry_price * -100` literally. -/
def Position.should_exit (p : Position) (current_time : ℚ) : Bool × String :=
  if current_time - p.entry_time > p.max_hold_time then
    (true, "max_hold_time")
  else
    let pnl_pct := p.unrealized_pnl / (p.entry_price * (p.quantity : ℚ)) * 100
    if p.side = Side.BUY ∧
        pnl_pct ≥ (p.take_profit_price - p.entry_price) / p.entry_price * 100 then
      (true, "take_profit")
    else if p.side = Side.BUY ∧
        pnl_pct ≤ -(p.stop_loss_price - p.entry_price) / p.entry_price * (-100) then
      (true, "stop_loss")
    else
      (false, "")

/-- A completed `Trade` record. -/
structure Trade where
  id : ℕ
  strategy_id : String
  symbol : String
  entry_exchange : String
  exit_exchange : String
  side : String
  quantity : ℤ
  entry_price : ℚ
  exit_price : ℚ
  entry_time : ℚ
  exit_time : ℚ
  pnl : ℚ
  pnl_pct : ℚ
  exit_reason : String
  deriving Repr

/-- `Side.value`. -/
def Side.value : Side → String
  | .BUY => "BUY"
  | .SELL => "SELL"

/-- The settings fields read by the simulator. -/
structure Settings where
  INITIAL_CAPITAL : ℚ
  MAX_DAILY_LOSS_PERCENT : ℚ
  MAX_TRADES_PER_DAY : ℕ
  MAX_POSITION_SIZE_PERCENT : ℚ
  deriving Repr

/-- `StrategyState`: the isolated per-genome simulation state. -/
structure StrategyState where
  dna : StrategyDNA
  initial_capital : ℚ
  current_capital : ℚ
  open_positions : List (String × Position) := []
  completed_trades : List Trade := []
  trade_counter : ℕ := 0
  daily_pnl : ℚ := 0
  daily_trades : ℕ := 0
  daily_start_capital : ℚ
  total_pnl : ℚ := 0
  win_count : ℕ := 0
  loss_count : ℕ := 0
  max_drawdown : ℚ := 0
  peak_capital : ℚ
  is_active : Bool := true
  last_trade_time : Option ℚ := none
  ticks_since_signal : ℕ := 0
  deriving Repr

/-- The state created for each genome by `StrategySimulator.initialize`:
`StrategyState(dna=dna)` with every capital field defaulted to
`settings.INITIAL_CAPITAL`. -/
def StrategyState.init (settings : Settings) (dna : StrategyDNA) : StrategyState where
  dna := dna
  initial_capital := settings.INITIAL_CAPITAL
  current_capital := settings.INITIAL_CAPITAL
  daily_start_capital := settings.INITIAL_CAPITAL
  peak_capital := settings.INITIAL_CAPITAL

/-- `StrategyState.daily_pnl_pct` property. -/
def StrategyState.daily_pnl_pct (st : StrategyState) : ℚ :=
  if st.daily_start_capital > 0 then st.daily_pnl / st.daily_start_capital * 100
  else 0

/-- Replace the position stored under a symbol (a Python dict entry
assignment for a key that is present). -/
def setPos (l : List (String × Position)) (k : String) (v : Position) :
    List (String × Position) :=
  l.map (fun p => if p.1 = k then (k, v) else p)

/-- `StrategySimulator._close_position(state, position, reason)`: record the
trade, realize the P&L into capital and the daily/total counters, update the
win/loss counts and peak/drawdown, and drop the position. -/
def _close_position (st : StrategyState) (position : Position) (reason : String)
    (now : ℚ) : StrategyState :=
  let exit_price := position.current_price
  let pnl := position.unrealized_pnl
  let pnl_pct := pnl / (position.entry_price * (position.quantity : ℚ)) * 100
  let trade_counter := st.trade_counter + 1
  let trade : Trade :=
    { id := trade_counter
      strategy_id := st.dna.id
      symbol := position.symbol
      entry_exchange := position.entry_exchange
      exit_exchange := position.exit_exchange
      side := position.side.value
      quantity := position.quantity
      entry_price := position.entry_price
      exit_price := exit_price
      entry_time := position.entry_time
      exit_time := now
      pnl := pnl
      pnl_pct := pnl_pct
      exit_reason := reason }
  let current_capital := st.current_capital + pnl
  let peak_capital :=
    if current_capital > st.peak_capital then current_capital else st.peak_capital
  let max_drawdown :=
    if current_capital > st.peak_capital then st.max_drawdown
    else max st.max_drawdown ((st.peak_capital - current_capital) / st.peak_capital)
  { st with
    trade_counter := trade_counter
    completed_trades := st.completed_trades ++ [trade]
    current_capital := current_capital
    daily_pnl := st.daily_pnl + pnl
    total_pnl := st.total_pnl + pnl
    win_count := if pnl > 0 then st.win_count + 1 else st.win_count
    loss_count := if pnl > 0 then st.loss_count else st.loss_count + 1
    peak_capital := peak_capital
    max_drawdown := max_drawdown
    open_positions := st.open_positions.filter (fun p => p.1 ≠ position.symbol) }

/-- `StrategySimulator._update_positions(state, spread)`: refresh the open
position's price from the exit leg and close it if an exit condition fires. -/
def _update_positions (st : StrategyState) (spread : SpreadData) (now : ℚ) :
    StrategyState :=
  match st.open_positions.lookup spread.symbol with
  | none => st
  | some position =>
      let p := position.update_price
        (if position.exit_exchange = "NSE" then spread.nse_price else spread.bse_price)
      let st1 := { st with open_positions := setPos st.open_positions spread.symbol p }
      let r := p.should_exit now
      if r.1 then _close_position st1 p r.2 now else st1

/-- `StrategySimulator._evaluate_entry(state, spread, signal)`: the guarded
entry chain; on success, adds the position and bumps the daily trade count —
it never touches capital or realized P&L. -/
def _evaluate_entry (settings : Settings) (regime : Option MarketRegime)
    (st : StrategyState) (spread : SpreadData) (signal : SpreadSignal)
    (now : ℚ) : StrategyState :=
  let dna := st.dna
  if (st.open_positions.lookup spread.symbol).isSome then st
  else if (match regime with
      | some r => ¬ dna.is_compatible_with_regime r.session r.volatility
      | none => false : Bool) then st
  else if signal.current_spread_pct < dna.min_spread_threshold then st
  else if (signal.ticks_stable : ℤ) < dna.stability_ticks then
    { st with ticks_since_signal := signal.ticks_stable }
  else if st.daily_trades ≥ settings.MAX_TRADES_PER_DAY then st
  else if st.daily_pnl_pct ≤ -settings.MAX_DAILY_LOSS_PERCENT then st
  else
    let position_value := st.current_capital * (dna.position_size_pct / 100)
    let max_position := st.current_capital * (settings.MAX_POSITION_SIZE_PERCENT / 100)
    let position_value := min position_value max_position
    let entry_price := if signal.direction = "BSE>NSE" then spread.nse_price
      else spread.bse_price
    let entry_exchange := if signal.direction = "BSE>NSE" then "NSE" else "BSE"
    let exit_exchange := if signal.direction = "BSE>NSE" then "BSE" else "NSE"
    let effective_spread := signal.current_spread_pct - dna.latency_buffer_pct
    if effective_spread ≤ 0 then st
    else
      let quantity := pyInt (position_value / entry_price)
      if quantity < 1 then st
      else
        let position : Position :=
          { symbol := spread.symbol
            entry_exchange := entry_exchange
            exit_exchange := exit_exchange
            side := Side.BUY
            quantity := quantity
            entry_price := entry_price
            entry_time := now
            max_hold_time := (dna.max_hold_seconds : ℚ)
            take_profit_price := entry_price * (1 + dna.take_profit_pct / 100)
            stop_loss_price := entry_price * (1 - dna.stop_loss_pct / 100)
            current_price := entry_price }
        { st with
          open_positions := st.open_positions ++ [(spread.symbol, position)]
          daily_trades := st.daily_trades + 1
          last_trade_time := some now }

/-- One incoming market event for one strategy: the spread observation, the
optional paired signal, the ambient regime snapshot, and the wall-clock
instant (`datetime.now()`) at which it is processed. -/
structure SpreadEvent where
  spread : SpreadData
  signal : Option SpreadSignal
  regime : Option MarketRegime
  now : ℚ

/-- The body of `StrategySimulator.on_spread_update` for one strategy:
skip inactive states, update positions, then evaluate entry when an
actionable signal accompanies the spread. -/
def on_spread_update_step (settings : Settings) (st : StrategyState)
    (ev : SpreadEvent) : StrategyState :=
  if st.is_active = false then st
  else
    let st1 := _update_positions st ev.spread ev.now
    match ev.signal with
    | some signal =>
        if signal.is_actionable then
          _evaluate_entry settings ev.regime st1 ev.spread signal ev.now
        else st1
    | none => st1

/-- A strategy's state after a finite sequence of spread-update events. -/
def runEvents (settings : Settings) (st : StrategyState)
    (events : List SpreadEvent) : StrategyState :=
  events.foldl (on_spread_update_step settings) st

/-- C5 (amended): for an open BUY position carrying the thresholds derived
at entry (`take_profit_price = entry*(1+tp/100)`,
`stop_loss_price = entry*(1-sl/100)`), after a price update the exit check
is the ordered cascade — time exit *strictly* beyond the max hold first,
then take-profit (`pnl_pct ≥ tp`), then stop-loss (`pnl_pct ≤ -sl`), else
stay open — returning exactly one reason.  (The claim's `elapsed ≥ max hold`
is strict `>` in the code: at exactly the max hold the time exit does not
fire; see the counterexample.) -/
theorem exit_conditions_checked_in_order (sym ex1 ex2 : String)
    (q : ℤ) (e tp sl hold tEntry pr now : ℚ)
    (he : 0 < e) (hq : 1 ≤ q) :
    (Position.update_price
        ⟨sym, ex1, ex2, Side.BUY, q, e, tEntry, hold,
          e * (1 + tp / 100), e * (1 - sl / 100), e, 0⟩ pr).should_exit now =
      if now - tEntry > hold then (true, "max_hold_time")
      else if (pr - e) / e * 100 ≥ tp then (true, "take_profit")
      else if (pr - e) / e * 100 ≤ -sl then (true, "stop_loss")
      else (false, "") := by
  have hq0 : (q : ℚ) ≠ 0 := by
    have : q ≠ 0 := by omega
    exact_mod_cast this
  have he0 : e ≠ 0 := ne_of_gt he
  unfold Position.update_price Position.should_exit
  dsimp only
  have hpnl : (pr - e) * (q : ℚ) / (e * (q : ℚ)) * 100 = (pr - e) / e * 100 := by
    rw [mul_div_mul_right _ _ hq0]
  have htp : (e * (1 + tp / 100) - e) / e * 100 = tp := by
    field_simp
    ring
  have hsl : -(e * (1 - sl / 100) - e) / e * (-100) = -sl := by
    field_simp
    ring
  simp [hpnl, htp, hsl]
  have hsl2 : -((e - e * (1 - sl / 100)) / e * 100) = -sl := by
    field_simp
    ring
  rw [hsl2]

/-- C5 witness for the amended statement: entry at 100, take-profit 0.1%,
stop-loss 0.2%, max hold 60 s; a price update to 102 at 10 s after entry
exits with reason take_profit. -/
theorem exit_conditions_checked_in_order_witness :
    (Position.update_price
        ⟨"RELIANCE", "NSE", "BSE", Side.BUY, 10, 100, 0, 60,
          100 * (1 + (0.1 : ℚ) / 100), 100 * (1 - (0.2 : ℚ) / 100), 100, 0⟩
        102).should_exit 10 = (true, "take_profit") := by
  rw [exit_conditions_checked_in_order "RELIANCE" "NSE" "BSE" 10 100 0.1 0.2 60 0
    102 10 (by norm_num) (by norm_num)]
  norm_num

/-- C5 counterexample to the frozen claim: at elapsed time exactly equal to
the max hold (60 s), with neutral P&L, the position does *not* exit — the
code tests `elapsed > max_hold_time` strictly, while the claim's first
branch (`elapsed ≥ max hold → TimeExit`) demands an exit here. -/
theorem time_exit_boundary_counterexample :
    (Position.update_price
        ⟨"RELIANCE", "NSE", "BSE", Side.BUY, 10, 100, 0, 60,
          100 * (1 + (0.1 : ℚ) / 100), 100 * (1 - (0.2 : ℚ) / 100), 100, 0⟩
        100).should_exit 60 = (false, "") ∧
    (60 : ℚ) - 0 ≥ 60 := by
  constructor
  · unfold Position.update_price Position.should_exit
    norm_num
  · norm_num

/-- The capital-accounting invariant of a `StrategyState`: current capital
is the initial capital plus the accumulated realized P&L, and that P&L is
exactly the sum of the completed trades' `pnl` fields. -/
def CapitalAccounting (st : StrategyState) : Prop :=
  st.current_capital = st.initial_capital + st.total_pnl ∧
  st.total_pnl = (st.completed_trades.map Trade.pnl).sum

set_option maxHeartbeats 1000000 in
theorem evaluate_entry_preserves_capital (settings : Settings)
    (regime : Option MarketRegime) (st : StrategyState) (spread : SpreadData)
    (signal : SpreadSignal) (now : ℚ) :
    (_evaluate_entry settings regime st spread signal now).current_capital =
        st.current_capital ∧
    (_evaluate_entry settings regime st spread signal now).total_pnl =
        st.total_pnl ∧
    (_evaluate_entry settings regime st spread signal now).initial_capital =
        st.initial_capital ∧
    (_evaluate_entry settings regime st spread signal now).completed_trades =
        st.completed_trades := by
  unfold _evaluate_entry
  dsimp only
  split_ifs <;> exact ⟨rfl, rfl, rfl, rfl⟩

theorem close_position_capital_accounting (st : StrategyState) (position : Position)
    (reason : String) (now : ℚ) (h : CapitalAccounting st) :
    CapitalAccounting (_close_position st position reason now) := by
  obtain ⟨h1, h2⟩ := h
  unfold _close_position CapitalAccounting
  dsimp only
  constructor
  · rw [h1]; ring
  · simp only [List.map_append, List.sum_append, List.map_cons, List.map_nil,
      List.sum_cons, List.sum_nil]
    rw [← h2]; ring

theorem update_positions_capital_accounting (st : StrategyState)
    (spread : SpreadData) (now : ℚ) (h : CapitalAccounting st) :
    CapitalAccounting (_update_positions st spread now) := by
  unfold _update_positions
  cases hl : st.open_positions.lookup spread.symbol with
  | none => exact h
  | some position =>
      dsimp only
      split <;> split
      all_goals
        first
          | exact close_position_capital_accounting _ _ _ _ ⟨h.1, h.2⟩
          | exact ⟨h.1, h.2⟩

theorem step_capital_accounting (settings : Settings) (st : StrategyState)
    (ev : SpreadEvent) (h : CapitalAccounting st) :
    CapitalAccounting (on_spread_update_step settings st ev) := by
  unfold on_spread_update_step
  split
  · exact h
  · have h1 := update_positions_capital_accounting st ev.spread ev.now h
    cases ev.signal with
    | none => exact h1
    | some signal =>
        dsimp only
        split
        · have h2 := evaluate_entry_preserves_capital settings ev.regime
            (_update_positions st ev.spread ev.now) ev.spread signal ev.now
          exact ⟨by rw [h2.1, h2.2.1, h2.2.2.1]; exact h1.1,
            by rw [h2.2.1, h2.2.2.2]; exact h1.2⟩
        · exact h1

/-- C10: after every finite sequence of spread-update events starting from a
freshly initialized strategy state, `current_capital` equals
`initial_capital + total_pnl` and `total_pnl` equals the sum of `pnl` over
the completed trades; moreover the Flat→Open entry transition
(`_evaluate_entry`) changes neither `current_capital` nor `total_pnl` nor
the completed-trade list — capital moves only when a position is closed. -/
theorem capital_accounting_invariant (settings : Settings) (dna : StrategyDNA)
    (events : List SpreadEvent) :
    ((runEvents settings (StrategyState.init settings dna) events).current_capital =
        (runEvents settings (StrategyState.init settings dna) events).initial_capital +
        (runEvents settings (StrategyState.init settings dna) events).total_pnl ∧
      (runEvents settings (StrategyState.init settings dna) events).total_pnl =
        ((runEvents settings (StrategyState.init settings dna) events).completed_trades.map
          Trade.pnl).sum) ∧
    ∀ (st : StrategyState) (spread : SpreadData) (signal : SpreadSignal)
      (regime : Option MarketRegime) (now : ℚ),
      (_evaluate_entry settings regime st spread signal now).current_capital =
          st.current_capital ∧
      (_evaluate_entry settings regime st spread signal now).total_pnl =
          st.total_pnl := by
  constructor
  · have hinit : CapitalAccounting (StrategyState.init settings dna) := by
      unfold CapitalAccounting StrategyState.init
      simp
    have : ∀ (evs : List SpreadEvent) (st : StrategyState), CapitalAccounting st →
        CapitalAccounting (runEvents settings st evs) := by
      intro evs
      induction evs with
      | nil => intro st h; exact h
      | cons ev rest ih =>
          intro st h
          exact ih _ (step_capital_accounting settings st ev h)
      
    exact this events _ hinit
  · intro st spread signal regime now
    have h := evaluate_entry_preserves_capital settings regime st spread signal now
    exact ⟨h.1, h.2.1⟩

-- =========================================================
-- evaluator.py : PerformanceEvaluator._calculate_sharpe
-- =========================================================

/-- `np.mean` of a list of rationals. -/
def npMean (xs : List ℚ) : ℚ := xs.sum / (xs.length : ℚ)

/-- The population variance underlying `np.std` (numpy's default
`ddof = 0`): `np.std(xs) = sqrt(npVariance xs)`. -/
def npVariance (xs : List ℚ) : ℚ :=
  ((xs.map (fun x => (x - npMean xs) ^ 2)).sum) / (xs.length : ℚ)

/-- `PerformanceEvaluator.RISK_FREE_RATE`. -/
def RISK_FREE_RATE : ℚ := 0.05

/-- `PerformanceEvaluator._calculate_sharpe(trades, trading_days)`.

The square root (`np.std`, `np.sqrt`) is irrational, so it is abstracted as
a parameter `sqrtQ`; the source's `std_return == 0` test is expressed as
`npVariance returns = 0`, which is equivalent since
`np.std(xs) = sqrt(npVariance xs)` vanishes exactly when the (nonnegative)
variance does.  The function is total: the degenerate cases return 0
rather than raising. -/
def _calculate_sharpe (sqrtQ : ℚ → ℚ) (trades : List Trade)
    (trading_days : ℤ) : ℚ :=
  if trades.length < 2 then 0
  else
    let returns := trades.map Trade.pnl_pct
    let avg_return := npMean returns
    if npVariance returns = 0 then 0
    else
      let std_return := sqrtQ (npVariance returns)
      let daily_rf := RISK_FREE_RATE / 252
      (avg_return - daily_rf) / std_return * sqrtQ (252 / ((max 1 trading_days : ℤ) : ℚ))

/-- C9: for every strategy state and every `trading_days`, the Sharpe-like
ratio is exactly 0 in the degenerate cases — fewer than 2 completed trades,
or zero variance (equivalently zero standard deviation) of the trades'
return percentages — and, being a total function, it never raises there. -/
theorem sharpe_degenerate_cases_zero (sqrtQ : ℚ → ℚ) (st : StrategyState)
    (trading_days : ℤ)
    (h : st.completed_trades.length < 2 ∨
      npVariance (st.completed_trades.map Trade.pnl_pct) = 0) :
    _calculate_sharpe sqrtQ st.completed_trades trading_days = 0 := by
  unfold _calculate_sharpe
  rcases h with h | h
  · rw [if_pos h]
  · by_cases hlen : st.completed_trades.length < 2
    · rw [if_pos hlen]
    · rw [if_neg hlen]
      dsimp only
      rw [if_pos h]

/-- C9 witness: a freshly initialized state (no trades) has Sharpe 0, for
the identity in place of the abstract square root. -/
theorem sharpe_degenerate_cases_zero_witness :
    _calculate_sharpe id (StrategyState.init ⟨10000, 2, 50, 10⟩
      (StrategyDNA.mkDefault "aaaaaaaa")).completed_trades 1 = 0 :=
  sharpe_degenerate_cases_zero id
    (StrategyState.init ⟨10000, 2, 50, 10⟩ (StrategyDNA.mkDefault "aaaaaaaa")) 1
    (Or.inl (by simp [StrategyState.init]))

-- =========================================================
-- paper_trader.py : PaperTradingEngine
-- =========================================================

/-- `DailyPerformance` record. -/
structure DailyPerformance where
  date : ℤ
  strategy_id : String
  pnl : ℚ
  pnl_pct : ℚ
  trade_count : ℕ
  win_rate : ℚ
  max_drawdown : ℚ
  deriving Repr

/-- `PromotionCandidate` record. -/
structure PromotionCandidate where
  strategy_id : String
  days_outperforming : ℕ
  total_outperformance : ℚ
  deriving Repr

/-- `PaperTradingEngine.DAYS_TO_OUTPERFORM`. -/
def DAYS_TO_OUTPERFORM : ℕ := 3

/-- `PaperTradingEngine.MIN_TRADES_FOR_PROMOTION`. -/
def MIN_TRADES_FOR_PROMOTION : ℕ := 5

/-- `PaperTradingEngine.MAX_DRAWDOWN_THRESHOLD`. -/
def MAX_DRAWDOWN_THRESHOLD : ℚ := 0.10

/-- `PaperTradingEngine._meets_promotion_criteria(state, candidate)`. -/
def _meets_promotion_criteria (state : StrategyState)
    (candidate : PromotionCandidate) : Bool :=
  if candidate.days_outperforming < DAYS_TO_OUTPERFORM then false
  else if state.completed_trades.length < MIN_TRADES_FOR_PROMOTION then false
  else if state.max_drawdown > MAX_DRAWDOWN_THRESHOLD then false
  else true

/-- Python dict entry assignment: overwrite when the key is present, append
otherwise. -/
def dictSet {α : Type} (l : List (String × α)) (k : String) (v : α) :
    List (String × α) :=
  if (l.lookup k).isSome then l.map (fun p => if p.1 = k then (k, v) else p)
  else l ++ [(k, v)]

/-- Python `del d[k]` (a no-op on an absent key, matching the guarded `del`
uses in the source). -/
def dictDel {α : Type} (l : List (String × α)) (k : String) :
    List (String × α) :=
  l.filter (fun p => p.1 ≠ k)

/-- Python `l[-n:]`: the last `n` elements. -/
def lastN {α : Type} (n : ℕ) (l : List α) : List α := l.drop (l.length - n)

/-- The engine state touched by `evaluate_promotions` (the main-portfolio
fields are not read by it). -/
structure PaperTradingEngine where
  champion_id : Option String
  champion_history : List String
  promotion_candidates : List (String × PromotionCandidate)
  daily_records : List (String × List DailyPerformance)

/-- `PaperTradingEngine.set_champion(strategy_id)`: push the old champion
onto the history and install the new one. -/
def set_champion (eng : PaperTradingEngine) (strategy_id : String) :
    PaperTradingEngine :=
  { eng with
    champion_history :=
      match eng.champion_id with
      | some c => eng.champion_history ++ [c]
      | none => eng.champion_history
    champion_id := some strategy_id }

/-- The challenger loop of `evaluate_promotions`: for each non-champion
state, compare the trailing-window P&L against the champion's, update or
reset the promotion candidate, and promote (returning the new champion id)
as soon as a challenger meets all criteria. -/
def evalPromotionsLoop (champ_id : String) (champ_recent_pnl : ℚ)
    (records : List (String × List DailyPerformance)) :
    List (String × StrategyState) → PaperTradingEngine →
      Option String × PaperTradingEngine
  | [], eng => (none, eng)
  | (strategy_id, state) :: rest, eng =>
      if strategy_id = champ_id then
        evalPromotionsLoop champ_id champ_recent_pnl records rest eng
      else
        let challenger_records := (records.lookup strategy_id).getD []
        if challenger_records.length < DAYS_TO_OUTPERFORM then
          evalPromotionsLoop champ_id champ_recent_pnl records rest eng
        else
          let challenger_recent_pnl :=
            ((lastN DAYS_TO_OUTPERFORM challenger_records).map
              DailyPerformance.pnl).sum
          if challenger_recent_pnl > champ_recent_pnl then
            let cands :=
              match eng.promotion_candidates.lookup strategy_id with
              | none =>
                  dictSet eng.promotion_candidates strategy_id
                    ⟨strategy_id, 1, challenger_recent_pnl - champ_recent_pnl⟩
              | some cand =>
                  dictSet eng.promotion_candidates strategy_id
                    ⟨cand.strategy_id, cand.days_outperforming + 1,
                      cand.total_outperformance +
                        (challenger_recent_pnl - champ_recent_pnl)⟩
            let eng1 := { eng with promotion_candidates := cands }
            let candidate := (cands.lookup strategy_id).getD ⟨strategy_id, 0, 0⟩
            if _meets_promotion_criteria state candidate then
              let eng2 := set_champion eng1 strategy_id
              let eng3 := { eng2 with
                promotion_candidates := dictDel eng2.promotion_candidates strategy_id }
              (some strategy_id, eng3)
            else
              evalPromotionsLoop champ_id champ_recent_pnl records rest eng1
          else
            evalPromotionsLoop champ_id champ_recent_pnl records rest
              { eng with
                promotion_candidates := dictDel eng.promotion_candidates strategy_id }

/-- `PaperTradingEngine.evaluate_promotions()`: guard clauses (no champion,
missing champion state, empty champion records) return `None`; otherwise run
the challenger loop against the champion's trailing-window P&L. -/
def evaluate_promotions (eng : PaperTradingEngine)
    (states : List (String × StrategyState)) :
    Option String × PaperTradingEngine :=
  match eng.champion_id with
  | none => (none, eng)
  | some champ_id =>
      match states.lookup champ_id with
      | none => (none, eng)
      | some _ =>
          let champ_records := (eng.daily_records.lookup champ_id).getD []
          if champ_records.isEmpty then (none, eng)
          else
            let champ_recent_pnl :=
              ((lastN DAYS_TO_OUTPERFORM champ_records).map
                DailyPerformance.pnl).sum
            evalPromotionsLoop champ_id champ_recent_pnl eng.daily_records
              states eng

/-- Characterization of `_meets_promotion_criteria`: true exactly when all
three thresholds hold. -/
theorem meets_promotion_criteria_iff (state : StrategyState)
    (cand : PromotionCandidate) :
    _meets_promotion_criteria state cand = true ↔
      DAYS_TO_OUTPERFORM ≤ cand.days_outperforming ∧
      MIN_TRADES_FOR_PROMOTION ≤ state.completed_trades.length ∧
      state.max_drawdown ≤ MAX_DRAWDOWN_THRESHOLD := by
  unfold _meets_promotion_criteria
  split_ifs with d1 d2 d3
  · simp only [Bool.false_eq_true, false_iff]
    rintro ⟨a, _, _⟩; omega
  · simp only [Bool.false_eq_true, false_iff]
    rintro ⟨_, b, _⟩; omega
  · simp only [Bool.false_eq_true, false_iff]
    rintro ⟨_, _, c⟩; exact absurd d3 (not_lt.mpr c)
  · simp only [true_iff]
    exact ⟨by omega, by omega, not_lt.mp d3⟩


/-- Overwriting a present key with `dictSet` makes its lookup return the new
value (map branch). -/
theorem lookup_map_setKey_self {α : Type} (k : String) (v : α) :
    ∀ l : List (String × α), (l.lookup k).isSome = true →
      (l.map (fun p => if p.1 = k then (k, v) else p)).lookup k = some v := by
  intro l
  induction l with
  | nil => intro h; simp at h
  | cons head t ih =>
      intro h
      obtain ⟨a, b⟩ := head
      by_cases hak : a = k
      · subst hak
        rw [List.map_cons]
        have hf : (if ((a, b) : String × α).1 = a then (a, v) else (a, b)) = (a, v) := by
          simp
        rw [hf]
        simp [List.lookup]
      · have hbeq : (k == a) = false := beq_eq_false_iff_ne.mpr (fun he => hak he.symm)
        have ht : (t.lookup k).isSome = true := by
          simpa [List.lookup, hbeq] using h
        rw [List.map_cons]
        have hf : (if ((a, b) : String × α).1 = k then (k, v) else (a, b)) = (a, b) := by
          simp [hak]
        rw [hf]
        simpa [List.lookup, hbeq] using ih ht

/-- Appending a fresh key with `dictSet` makes its lookup return the new
value (append branch). -/
theorem lookup_append_single_self {α : Type} (k : String) (v : α) :
    ∀ l : List (String × α), (l.lookup k).isSome = false →
      (l ++ [(k, v)]).lookup k = some v := by
  intro l
  induction l with
  | nil => intro _; simp [List.lookup]
  | cons head t ih =>
      intro h
      obtain ⟨a, b⟩ := head
      by_cases hak : a = k
      · subst hak
        simp [List.lookup] at h
      · have hbeq : (k == a) = false := beq_eq_false_iff_ne.mpr (fun he => hak he.symm)
        have ht : (t.lookup k).isSome = false := by
          simpa [List.lookup, hbeq] using h
        simpa [List.lookup, hbeq] using ih ht

/-- Looking up the key just written by a Python dict assignment. -/
theorem lookup_dictSet_self {α : Type} (k : String) (v : α)
    (l : List (String × α)) : (dictSet l k v).lookup k = some v := by
  unfold dictSet
  by_cases h : (l.lookup k).isSome = true
  · rw [if_pos h]
    exact lookup_map_setKey_self k v l h
  · rw [if_neg h]
    refine lookup_append_single_self k v l ?_
    revert h
    cases (l.lookup k).isSome <;> simp

/-- A Python dict assignment at one key leaves every other key's lookup
unchanged. -/
theorem lookup_dictSet_ne {α : Type} (k k' : String) (v : α) (hne : k' ≠ k) :
    ∀ l : List (String × α), (dictSet l k v).lookup k' = l.lookup k' := by
  have hbeq : (k' == k) = false := beq_eq_false_iff_ne.mpr hne
  intro l
  unfold dictSet
  by_cases h : (l.lookup k).isSome = true
  · rw [if_pos h]
    clear h
    induction l with
    | nil => simp
    | cons head t ih =>
        obtain ⟨a, b⟩ := head
        by_cases hak : a = k
        · subst hak
          rw [List.map_cons]
          have hf : (if ((a, b) : String × α).1 = a then (a, v) else (a, b)) = (a, v) := by
            simp
          rw [hf]
          simp [List.lookup, hbeq, ih]
        · rw [List.map_cons]
          have hf : (if ((a, b) : String × α).1 = k then (k, v) else (a, b)) = (a, b) := by
            simp [hak]
          rw [hf]
          by_cases hka : k' = a
          · subst hka
            simp [List.lookup]
          · have hbeq2 : (k' == a) = false := beq_eq_false_iff_ne.mpr hka
            simp [List.lookup, hbeq2, ih]
  · rw [if_neg h]
    clear h
    induction l with
    | nil => simp [List.lookup, hbeq]
    | cons head t ih =>
        obtain ⟨a, b⟩ := head
        by_cases hka : k' = a
        · subst hka
          simp [List.lookup]
        · have hbeq2 : (k' == a) = false := beq_eq_false_iff_ne.mpr hka
          simp [List.lookup, hbeq2, ih]

/-- A Python `del` at one key leaves every other key's lookup unchanged. -/
theorem lookup_dictDel_ne {α : Type} (k k' : String) (hne : k' ≠ k) :
    ∀ l : List (String × α), (dictDel l k).lookup k' = l.lookup k' := by
  intro l
  unfold dictDel
  induction l with
  | nil => simp
  | cons head t ih =>
      obtain ⟨a, b⟩ := head
      rw [List.filter_cons]
      by_cases hak : a = k
      · have hbeq : (k' == a) = false := beq_eq_false_iff_ne.mpr (by rw [hak]; exact hne)
        have hf : decide (((a, b) : String × α).1 ≠ k) = false := by simp [hak]
        rw [hf]
        simp only [Bool.false_eq_true, if_false]
        rw [ih]
        simp only [List.lookup, hbeq]
      · have hf : decide (((a, b) : String × α).1 ≠ k) = true := by simp [hak]
        rw [hf]
        have htt : (true = true) := rfl
        rw [if_pos htt]
        by_cases hka : k' = a
        · subst hka
          simp [List.lookup]
        · have hbeq2 : (k' == a) = false := beq_eq_false_iff_ne.mpr hka
          simp only [List.lookup, hbeq2]
          exact ih

/-- Loop invariant for `evalPromotionsLoop`, for a state list with no
duplicate ids (`get_all_states()` is a Python dict, so its keys are
unique): a promotion at `sid` pins down the engine's stored promotion
candidate for `sid` — the candidate checked by `_meets_promotion_criteria`
is exactly that stored entry with its consecutive-outperform counter
incremented by the current outperforming cycle — and all three promotion
criteria hold for it; when no promotion occurs the champion is unchanged. -/
theorem evalPromotionsLoop_spec (champ_id : String) (champ_recent_pnl : ℚ)
    (records : List (String × List DailyPerformance)) :
    ∀ (items : List (String × StrategyState)) (eng : PaperTradingEngine),
      (items.map Prod.fst).Nodup →
      (∀ sid, (evalPromotionsLoop champ_id champ_recent_pnl records items eng).1 =
          some sid →
        ∃ st c0,
          (sid, st) ∈ items ∧
          eng.promotion_candidates.lookup sid = some c0 ∧
          DAYS_TO_OUTPERFORM ≤
            ((records.lookup sid).getD ([] : List DailyPerformance)).length ∧
          ((lastN DAYS_TO_OUTPERFORM ((records.lookup sid).getD [])).map
            DailyPerformance.pnl).sum > champ_recent_pnl ∧
          _meets_promotion_criteria st
            ⟨c0.strategy_id, c0.days_outperforming + 1,
              c0.total_outperformance +
                (((lastN DAYS_TO_OUTPERFORM ((records.lookup sid).getD [])).map
                  DailyPerformance.pnl).sum - champ_recent_pnl)⟩ = true ∧
          DAYS_TO_OUTPERFORM ≤ c0.days_outperforming + 1 ∧
          MIN_TRADES_FOR_PROMOTION ≤ st.completed_trades.length ∧
          st.max_drawdown ≤ MAX_DRAWDOWN_THRESHOLD) ∧
      ((evalPromotionsLoop champ_id champ_recent_pnl records items eng).1 = none →
        (evalPromotionsLoop champ_id champ_recent_pnl records items eng).2.champion_id =
          eng.champion_id) := by
  intro items
  induction items with
  | nil =>
      intro eng _
      constructor
      · intro sid h
        simp [evalPromotionsLoop] at h
      · intro _
        rfl
  | cons head rest ih =>
      intro eng hnd
      obtain ⟨sid0, st0⟩ := head
      have hnd2 : (rest.map Prod.fst).Nodup := by
        simp only [List.map_cons] at hnd
        exact hnd.of_cons
      have hnotmem : sid0 ∉ rest.map Prod.fst := by
        simp only [List.map_cons] at hnd
        exact (List.nodup_cons.mp hnd).1
      constructor
      · intro sid h
        simp only [evalPromotionsLoop] at h
        split_ifs at h with h1 h2 h3 h4
        · obtain ⟨st, c0, hmem, hlook, hlen, hout, hmeets, hdays, htr, hdd⟩ :=
            (ih eng hnd2).1 sid h
          exact ⟨st, c0, List.mem_cons_of_mem _ hmem, hlook, hlen, hout,
            hmeets, hdays, htr, hdd⟩
        · obtain ⟨st, c0, hmem, hlook, hlen, hout, hmeets, hdays, htr, hdd⟩ :=
            (ih eng hnd2).1 sid h
          exact ⟨st, c0, List.mem_cons_of_mem _ hmem, hlook, hlen, hout,
            hmeets, hdays, htr, hdd⟩
        · obtain rfl := Option.some.inj h
          cases hx : eng.promotion_candidates.lookup sid0 with
          | none =>
              exfalso
              rw [hx] at h4
              dsimp only at h4
              rw [lookup_dictSet_self] at h4
              simp only [Option.getD_some] at h4
              have hd3 := ((meets_promotion_criteria_iff _ _).mp h4).1
              simp [DAYS_TO_OUTPERFORM] at hd3
          | some c0 =>
              rw [hx] at h4
              dsimp only at h4
              rw [lookup_dictSet_self] at h4
              simp only [Option.getD_some] at h4
              obtain ⟨hd3, htr, hdd⟩ := (meets_promotion_criteria_iff _ _).mp h4
              exact ⟨st0, c0, List.mem_cons_self _ _, rfl, by omega, h3, h4,
                hd3, htr, hdd⟩
        · obtain ⟨st, c0, hmem, hlook, hlen, hout, hmeets, hdays, htr, hdd⟩ :=
            (ih _ hnd2).1 sid h
          have hne : sid ≠ sid0 := fun he =>
            hnotmem (he ▸ List.mem_map_of_mem Prod.fst hmem)
          dsimp only at hlook
          cases hx : eng.promotion_candidates.lookup sid0 with
          | none =>
              rw [hx] at hlook
              dsimp only at hlook
              rw [lookup_dictSet_ne _ _ _ hne] at hlook
              exact ⟨st, c0, List.mem_cons_of_mem _ hmem, hlook, hlen, hout,
                hmeets, hdays, htr, hdd⟩
          | some c1 =>
              rw [hx] at hlook
              dsimp only at hlook
              rw [lookup_dictSet_ne _ _ _ hne] at hlook
              exact ⟨st, c0, List.mem_cons_of_mem _ hmem, hlook, hlen, hout,
                hmeets, hdays, htr, hdd⟩
        · obtain ⟨st, c0, hmem, hlook, hlen, hout, hmeets, hdays, htr, hdd⟩ :=
            (ih _ hnd2).1 sid h
          have hne : sid ≠ sid0 := fun he =>
            hnotmem (he ▸ List.mem_map_of_mem Prod.fst hmem)
          dsimp only at hlook
          rw [lookup_dictDel_ne _ _ hne] at hlook
          exact ⟨st, c0, List.mem_cons_of_mem _ hmem, hlook, hlen, hout,
            hmeets, hdays, htr, hdd⟩
      · intro h
        simp only [evalPromotionsLoop] at h ⊢
        split_ifs at h ⊢ with h1 h2 h3 h4 <;>
          first
            | exact (ih _ hnd2).2 h
            | exact Option.noConfusion h

/-- C4: with unique strategy ids (the iterated states form a Python dict),
`evaluate_promotions` replaces the champion with a challenger `sid` only
when all three criteria hold simultaneously at that moment, for the
engine's actual stored promotion candidate for `sid`: the stored candidate
exists and its consecutive-outperform counter, incremented by the current
outperforming cycle, is ≥ 3; the challenger's completed trade count is ≥ 5;
and its max drawdown is ≤ 10%.  The candidate checked is exactly the stored
entry with counter + 1 and the trailing-window outperformance added.  When
no challenger is promoted the champion is unchanged. -/
theorem promotion_requires_all_criteria (eng : PaperTradingEngine)
    (states : List (String × StrategyState))
    (hnodup : (states.map Prod.fst).Nodup) :
    (∀ sid, (evaluate_promotions eng states).1 = some sid →
      ∃ champ st c0,
        eng.champion_id = some champ ∧
        (sid, st) ∈ states ∧
        eng.promotion_candidates.lookup sid = some c0 ∧
        ((lastN DAYS_TO_OUTPERFORM ((eng.daily_records.lookup sid).getD [])).map
          DailyPerformance.pnl).sum >
          ((lastN DAYS_TO_OUTPERFORM ((eng.daily_records.lookup champ).getD [])).map
            DailyPerformance.pnl).sum ∧
        _meets_promotion_criteria st
          ⟨c0.strategy_id, c0.days_outperforming + 1,
            c0.total_outperformance +
              (((lastN DAYS_TO_OUTPERFORM ((eng.daily_records.lookup sid).getD [])).map
                DailyPerformance.pnl).sum -
                ((lastN DAYS_TO_OUTPERFORM ((eng.daily_records.lookup champ).getD [])).map
                  DailyPerformance.pnl).sum)⟩ = true ∧
        3 ≤ c0.days_outperforming + 1 ∧
        5 ≤ st.completed_trades.length ∧
        st.max_drawdown ≤ 0.10) ∧
    ((evaluate_promotions eng states).1 = none →
      (evaluate_promotions eng states).2.champion_id = eng.champion_id) := by
  constructor
  · intro sid h
    unfold evaluate_promotions at h
    cases hc : eng.champion_id with
    | none => rw [hc] at h; exact Option.noConfusion h
    | some champ_id =>
        rw [hc] at h
        dsimp only at h
        cases hs : states.lookup champ_id with
        | none => rw [hs] at h; exact Option.noConfusion h
        | some champ_st =>
            rw [hs] at h
            dsimp only at h
            by_cases hrec :
              ((eng.daily_records.lookup champ_id).getD []).isEmpty = true
            · rw [if_pos hrec] at h; exact Option.noConfusion h
            · rw [if_neg hrec] at h
              obtain ⟨st, c0, hmem, hlook, hlen, hout, hmeets, hdays, htr, hdd⟩ :=
                (evalPromotionsLoop_spec champ_id _ eng.daily_records
                  states eng hnodup).1 sid h
              exact ⟨champ_id, st, c0, rfl, hmem, hlook, hout, hmeets,
                hdays, htr, hdd⟩
  · intro h
    unfold evaluate_promotions at h ⊢
    cases hc : eng.champion_id with
    | none =>
        dsimp only
        exact hc
    | some champ_id =>
        rw [hc] at h
        dsimp only at h
        dsimp only
        cases hs : states.lookup champ_id with
        | none =>
            dsimp only
            exact hc
        | some champ_st =>
            rw [hs] at h
            dsimp only at h
            dsimp only
            by_cases hrec :
              ((eng.daily_records.lookup champ_id).getD []).isEmpty = true
            · rw [if_pos hrec]
              exact hc
            · rw [if_neg hrec] at h ⊢
              rw [(evalPromotionsLoop_spec champ_id _ eng.daily_records
                states eng hnodup).2 h, hc]

/-- A minimal genome literal for concrete promotion scenarios. -/
def dnaW (idStr nm : String) : StrategyDNA :=
  ⟨idStr, nm, 1, none, 0.05, 3, 0.02, 5, 60, .all, .all, 0.1, 0.2⟩

/-- A completed trade for concrete promotion scenarios. -/
def tradeW : Trade :=
  ⟨1, "x", "RELIANCE", "NSE", "BSE", "BUY", 10, 100, 101, 0, 10, 10, 1, "take_profit"⟩

/-- Champion state for the promotion witness. -/
def stCW : StrategyState :=
  { dna := dnaW "c" "C", initial_capital := 10000, current_capital := 10000,
    daily_start_capital := 10000, peak_capital := 10000 }

/-- Challenger state for the promotion witness: 5 completed trades and a 5%
max drawdown. -/
def stXW : StrategyState :=
  { dna := dnaW "x" "X", initial_capital := 10000, current_capital := 10000,
    daily_start_capital := 10000, peak_capital := 10000,
    completed_trades := List.replicate 5 tradeW, max_drawdown := 0.05 }

/-- A daily performance record carrying only the P&L that
`evaluate_promotions` reads. -/
def recW (sidStr : String) (p : ℚ) : DailyPerformance := ⟨0, sidStr, p, 0, 0, 0, 0⟩

/-- Engine for the promotion witness: champion `c`, challenger `x` already at
2 consecutive outperforming cycles, and records where `x` beat `c` over the
trailing window. -/
def engW : PaperTradingEngine :=
  ⟨some "c", [], [("x", ⟨"x", 2, 5⟩)],
    [("c", [recW "c" 1]), ("x", [recW "x" 10, recW "x" 10, recW "x" 10])]⟩

/-- The simulator states passed to the promotion witness. -/
def statesW : List (String × StrategyState) := [("c", stCW), ("x", stXW)]

/-- C4 witness: in the concrete scenario the challenger `x` is promoted, and
the theorem pins the promotion to the engine's stored candidate for `x`
(2 prior outperforming cycles, incremented to 3) together with the trade
count and drawdown criteria. -/
theorem promotion_requires_all_criteria_witness :
    ∃ champ st c0,
      engW.champion_id = some champ ∧
      ("x", st) ∈ statesW ∧
      engW.promotion_candidates.lookup "x" = some c0 ∧
      ((lastN DAYS_TO_OUTPERFORM ((engW.daily_records.lookup "x").getD [])).map
        DailyPerformance.pnl).sum >
        ((lastN DAYS_TO_OUTPERFORM ((engW.daily_records.lookup champ).getD [])).map
          DailyPerformance.pnl).sum ∧
      _meets_promotion_criteria st
        ⟨c0.strategy_id, c0.days_outperforming + 1,
          c0.total_outperformance +
            (((lastN DAYS_TO_OUTPERFORM ((engW.daily_records.lookup "x").getD [])).map
              DailyPerformance.pnl).sum -
              ((lastN DAYS_TO_OUTPERFORM ((engW.daily_records.lookup champ).getD [])).map
                DailyPerformance.pnl).sum)⟩ = true ∧
      3 ≤ c0.days_outperforming + 1 ∧
      5 ≤ st.completed_trades.length ∧
      st.max_drawdown ≤ 0.10 :=
  (promotion_requires_all_criteria engW statesW (by decide)).1 "x" (by
    have e1 : (("c" : String) == "c") = true := by decide
    have e2 : (("x" : String) == "c") = false := by decide
    have e3 : (("c" : String) == "x") = false := by decide
    have e4 : (("x" : String) == "x") = true := by decide
    have e5 : ¬ (("x" : String) = "c") := by decide
    norm_num [evaluate_promotions, evalPromotionsLoop, engW, statesW, stCW,
      stXW, recW, dnaW, tradeW, lastN, dictSet, dictDel, set_champion,
      _meets_promotion_criteria, DAYS_TO_OUTPERFORM, MIN_TRADES_FOR_PROMOTION,
      MAX_DRAWDOWN_THRESHOLD, List.lookup, e1, e2, e3, e4, e5])
